import Mathlib

/-
Verification development for the larry-pdf reading engine.

The Rust sources (tokenizer.rs, reader.rs, pdf.rs, page.rs, text.rs,
content_stream_lexer.rs) are shallowly embedded below.  Conventions:

* Rust `panic!` / `unwrap` / `expect` / `assert!` / `todo!` failures are
  modelled by `RustResult.panic`; recoverable `Result::Err` values that the
  code returns (rather than unwraps) stay as `Except.error`.  Panic message
  texts are abbreviated; control flow is modelled exactly.
* `f64` PDF numbers are modelled as exact rationals; the decimal literal
  forms produced by the tokenizer are the modelled domain (the special
  floating values never arise from these sources).  The Rust `as u64` /
  `as usize` cast is `ratAsU64` (truncation toward zero, saturating).
* Byte inputs are modelled as `List Char` for the tokenizer (the Rust code
  converts each byte to a `char`) and as `List Nat` for raw stream bytes.
* `HashMap` iteration order and entry storage are modelled by association
  lists (`List (key, value)`), lookup being the first match.
* External collaborators (flate2 decompression) are passed in as an explicit
  function argument `dec`.
-/

namespace LarryPdf

/-- Outcome of a Rust computation: either a value or a `panic!` unwind. -/
inductive RustResult (α : Type) where
  | ok (a : α)
  | panic (msg : String)
deriving Repr, DecidableEq

/-- True exactly on the `panic` constructor. -/
def RustResult.isPanic {α : Type} : RustResult α → Bool
  | .panic _ => true
  | .ok _ => false

/-- tokenizer.rs: `PDFObjectHeader` (object number, generation number). -/
structure PDFObjectHeader where
  object_number : Nat
  generation_number : Nat
deriving DecidableEq, Repr

/-- tokenizer.rs: classical xref table entry (the struct named `XRefEntry`
in tokenizer.rs; renamed here because reader.rs uses the same name for the
xref-stream entry enum). -/
structure XRefTableEntry where
  byte_offset : Nat
  generation_number : Nat
  free : Bool
deriving DecidableEq, Repr

/-- tokenizer.rs: `XRefHeader`. -/
structure XRefHeader where
  first_object_number : Nat
  num_entries : Nat
deriving DecidableEq, Repr

/-- reader.rs: payload of `XRefEntry::Free`. -/
structure XRefStreamFreeObject where
  object_number_of_next_free_object : Nat
  generation_number_for_next_object_use : Nat
deriving DecidableEq, Repr

/-- reader.rs: payload of `XRefEntry::Uncompressed`. -/
structure XRefStreamUncompressedObject where
  byte_offset : Nat
  generation_number : Nat
deriving DecidableEq, Repr

/-- reader.rs: payload of `XRefEntry::Compressed`. -/
structure XRefStreamCompressedObject where
  object_number_of_parent_stream : Nat
  index_in_stream : Nat
deriving DecidableEq, Repr

/-- reader.rs: the xref-stream entry enum `XRefEntry`. -/
inductive XRefEntry where
  | Free (o : XRefStreamFreeObject)
  | Uncompressed (o : XRefStreamUncompressedObject)
  | Compressed (o : XRefStreamCompressedObject)
deriving DecidableEq, Repr

/-- reader.rs / tokenizer.rs: `XRefSection` as constructed by reader.rs
(`header: None` for stream xrefs, `Some` for classical tables). -/
structure XRefSection where
  header : Option XRefHeader
  entries : List XRefEntry
deriving DecidableEq, Repr

/-- pdf.rs: `PDFValue`.  `Dictionary`/`Stream` carry association lists
modelling `HashMap<String, PDFValue>`. -/
inductive PDFValue where
  | Dictionary (d : List (String × PDFValue))
  | Boolean (b : Bool)
  | Array (vs : List PDFValue)
  | String (s : String)
  | ObjectReference (h : PDFObjectHeader)
  | Number (q : ℚ)
  | Name (s : String)
  | Stream (dict : List (String × PDFValue)) (bytes : List Nat)
  | Bytes (bs : List Nat)
  | Null
deriving Repr

/-- pdf.rs: `PDFDictionary` (`HashMap<String, PDFValue>` as an assoc list). -/
abbrev PDFDictionary := List (String × PDFValue)

/-- `HashMap::get` on the assoc-list model: first matching key. -/
def dictGet (d : PDFDictionary) (k : String) : Option PDFValue :=
  (d.find? (fun kv => kv.1 == k)).map (fun kv => kv.2)

/-- pdf.rs: `PDFObject`. -/
structure PDFObject where
  header : PDFObjectHeader
  value : PDFValue
  offset : Nat
deriving Repr

/-- page.rs: `PDFPage`. -/
structure PDFPage where
  object : PDFObject
  contents : PDFObject
deriving Repr

/-- pdf.rs: the `PDF` document record. -/
structure PDF where
  version : Option String := none
  objects : List (PDFObjectHeader × PDFObject) := []
  startxref : Option Nat := none
  root : Option PDFObject := none
  trailer : Option PDFDictionary := none
  xref_table : Option XRefSection := none
  pages : List PDFPage := []
deriving Repr

/-- `HashMap::get` on `PDF.objects` (`Reader::get_object_by_reference`). -/
def get_object_by_reference (pdf : PDF) (reference : PDFObjectHeader) : Option PDFObject :=
  ((pdf.objects).find? (fun kv => kv.1 == reference)).map (fun kv => kv.2)

/-- reader.rs: `Reader::get_object_at_offset` — linear scan of the object
map for an object whose `offset` equals the argument (`HashMap::values`
iteration order modelled by list order). -/
def get_object_at_offset (pdf : PDF) (offset : Nat) : Option PDFObject :=
  ((pdf.objects).find? (fun kv => kv.2.offset == offset)).map (fun kv => kv.2)

/-- Rust `as u64` / `as usize` on a (modelled) `f64`: truncation toward
zero with saturation at the bounds of the 64-bit unsigned range. -/
def ratAsU64 (q : ℚ) : Nat :=
  if q < 0 then 0 else min (Int.floor q).toNat (2 ^ 64 - 1)

/-- Value of an ASCII hex digit, case-insensitive (`from_str_radix(_, 16)`
digit function). -/
def hexDigitVal? (c : Char) : Option Nat :=
  if c.isDigit then some (c.toNat - 48)
  else if 65 ≤ c.toNat ∧ c.toNat ≤ 70 then some (c.toNat - 55)
  else if 97 ≤ c.toNat ∧ c.toNat ≤ 102 then some (c.toNat - 87)
  else none

/-- The pair loop of `Tokenizer::hex_string_to_bytes`, applied to the
REVERSED digit list: the Rust loop pops the last character as the first
(high) digit of each two-digit hex byte and the second-to-last as the low
digit, walking right to left. -/
def hexPairBytes : List Char → RustResult (List Nat)
  | [] => .ok []
  | [_] => .panic "called Option::unwrap on a None value"
  | c1 :: c2 :: rest =>
    match hexDigitVal? c1, hexDigitVal? c2 with
    | some hi, some lo =>
      match hexPairBytes rest with
      | .ok bs => .ok ((16 * hi + lo) :: bs)
      | .panic m => .panic m
    | _, _ => .panic "invalid digit found in string"

/-- tokenizer.rs: `Tokenizer::hex_string_to_bytes`.  Pads an odd-length
string with a trailing `0`, then converts via the reversed pair loop.
(The Rust signature returns `Result`, but no `Err` path exists.) -/
def hex_string_to_bytes (s : String) : RustResult (List Nat) :=
  let padded := if s.length % 2 == 1 then s.push (Char.ofNat 48) else s
  hexPairBytes padded.data.reverse

/-! ## Tokenizer (tokenizer.rs)

The tokenizer reads from a seekable cursor; we model the cursor as an
immutable `List Char` (each byte read is converted to a `char` by
`next_char`) plus an explicit position.  The state stack is a list whose
HEAD is the Rust `Vec`'s LAST element (push = cons, pop = tail). -/

/-- tokenizer.rs: `TokenizerState`. -/
inductive TokenizerState where
  | Start
  | Object
  | DictionaryKey
  | DictionaryValue
  | ListValue
  | Stream
  | StreamEnd
  | XRefSection
  | XRefEntry
  | DocumentEnd
  | Trailer
deriving DecidableEq, Repr

/-- tokenizer.rs: `PDFToken`. -/
inductive PDFToken where
  | Comment (s : String)
  | ObjectHeader (h : PDFObjectHeader)
  | ObjectEnd
  | ObjectReference (h : PDFObjectHeader)
  | DictionaryStart
  | DictionaryEnd
  | Name (s : String)
  | ArrayStart
  | ArrayEnd
  | StringBegin
  | String (s : String)
  | StringEnd
  | HexString (bs : List Nat)
  | Boolean (b : Bool)
  | Number (q : ℚ)
  | StartXRef (n : Nat)
  | XRefSectionBegin
  | XRefSectionEnd
  | XRefSubSectionHeader (h : XRefHeader)
  | XRefEntryTok (e : XRefTableEntry)
  | Null
  | StreamBegin
  | StreamEnd
  | TrailerBegin
  | DocumentEnd
deriving DecidableEq, Repr

/-- Tokenizer input: the cursor's bytes, one `Char` per byte. -/
abbrev Input := List Char

/-- tokenizer.rs: `Tokenizer::next_char` — one byte, `None` at EOF. -/
def next_char (inp : Input) (pos : Nat) : Option (Char × Nat) :=
  match inp[pos]? with
  | some c => some (c, pos + 1)
  | none => none

/-- Loop body of `Tokenizer::read_until` over the remaining characters;
returns the accumulated string and the number of characters consumed. -/
def read_until_go (untilChars : List Char) (seek_back : Bool) : List Char → String × Nat
  | [] => ("", 0)
  | c :: rest =>
    if untilChars.contains c then
      ("", if seek_back then 0 else 1)
    else
      let r := read_until_go untilChars seek_back rest
      (String.mk (c :: r.1.data), r.2 + 1)

/-- tokenizer.rs: `Tokenizer::read_until`.  Reads until a terminator
character (consumed unless `seek_back`) or EOF; never fails. -/
def read_until (inp : Input) (pos : Nat) (untilChars : List Char) (seek_back : Bool) :
    String × Nat :=
  let r := read_until_go untilChars seek_back (inp.drop pos)
  (r.1, pos + r.2)

/-- Loop body of `Tokenizer::consume_whitespace`: count of leading
whitespace characters; panics (`unwrap` on `None`) at EOF. -/
def consume_ws_go : List Char → RustResult Nat
  | [] => .panic "called Option::unwrap on a None value"
  | c :: rest =>
    if c = ' ' ∨ c = '\n' ∨ c = '\r' then
      match consume_ws_go rest with
      | .ok n => .ok (n + 1)
      | .panic m => .panic m
    else .ok 0

/-- tokenizer.rs: `Tokenizer::consume_whitespace` — skips `SP`/`LF`/`CR`,
leaving the position on the first non-whitespace character. -/
def consume_whitespace (inp : Input) (pos : Nat) : RustResult Nat :=
  match consume_ws_go (inp.drop pos) with
  | .ok n => .ok (pos + n)
  | .panic m => .panic m

/-- Number of leading ASCII decimal digits. -/
def takeDigitsCount : List Char → Nat
  | [] => 0
  | c :: rest => if c.isDigit then takeDigitsCount rest + 1 else 0

/-- Decimal value of a digit list. -/
def digitsToNat (cs : List Char) : Nat :=
  cs.foldl (fun acc c => acc * 10 + (c.toNat - 48)) 0

/-- Model of Rust `u64::from_str` (as used via `parse::<u64>()`): an
optional leading `+`, one or more digits, nothing else, no overflow. -/
def parseU64? (s : String) : Option Nat :=
  let cs := match s.data with
    | c :: rest => if c = '+' then rest else s.data
    | [] => []
  if cs.length = 0 then none
  else if cs.all Char.isDigit then
    let v := digitsToNat cs
    if v < 2 ^ 64 then some v else none
  else none

/-- Recognizer for a decimal floating literal, shared by the model of
Rust `f64::from_str` and of nom's `double`:
`sign? (digits+ (. digits*)? | . digits+) ((e|E) sign? digits+)?`.
Returns the number of characters consumed and the exact rational value.
(The special `f64` forms `inf`/`NaN` are outside the modelled domain;
they never arise from the PDF sources handled here.) -/
def recogFloat (s : List Char) : Option (Nat × ℚ) :=
  let sgnTriple : Nat × ℚ × List Char :=
    match s with
    | c :: rest =>
      if c = '-' then (1, -1, rest)
      else if c = '+' then (1, 1, rest)
      else (0, 1, s)
    | [] => (0, 1, [])
  let sk := sgnTriple.1
  let sgn := sgnTriple.2.1
  let s1 := sgnTriple.2.2
  let n1 := takeDigitsCount s1
  let intPart := s1.take n1
  let s2 := s1.drop n1
  let fracTriple : Nat × List Char × List Char :=
    match s2 with
    | c :: rest =>
      if c = '.' then
        let n2 := takeDigitsCount rest
        (1 + n2, rest.take n2, rest.drop n2)
      else (0, [], s2)
    | [] => (0, [], [])
  let nf := fracTriple.1
  let fracPart := fracTriple.2.1
  let s3 := fracTriple.2.2
  if n1 = 0 ∧ fracPart = [] then none
  else
    let mant : ℚ := (digitsToNat intPart : ℚ) +
      (digitsToNat fracPart : ℚ) / ((10 : ℚ) ^ fracPart.length)
    let expPair : Nat × ℤ :=
      match s3 with
      | c :: rest =>
        if c = 'e' ∨ c = 'E' then
          match rest with
          | d :: rest2 =>
            if d = '-' then
              let n3 := takeDigitsCount rest2
              if n3 = 0 then (0, 0)
              else (2 + n3, -(digitsToNat (rest2.take n3) : ℤ))
            else if d = '+' then
              let n3 := takeDigitsCount rest2
              if n3 = 0 then (0, 0) else (2 + n3, (digitsToNat (rest2.take n3) : ℤ))
            else
              let n3 := takeDigitsCount rest
              if n3 = 0 then (0, 0) else (1 + n3, (digitsToNat (rest.take n3) : ℤ))
          | [] => (0, 0)
        else (0, 0)
      | [] => (0, 0)
    some (sk + n1 + nf + expPair.1, sgn * mant * (10 : ℚ) ^ expPair.2)

/-- Model of Rust `f64::from_str` (`parse::<f64>()`) on its decimal
literal domain: the whole string must be a decimal float literal. -/
def parseF64? (s : String) : Option ℚ :=
  match recogFloat s.data with
  | some (k, q) => if k = s.data.length then some q else none
  | none => none

/-- tokenizer.rs: `Tokenizer::read_number` — skip whitespace (panics at
EOF), read until a terminator, parse as `f64` (`none` = `ParseFloatError`,
which every caller `unwrap`s into a panic). -/
def read_number (inp : Input) (pos : Nat) : RustResult (Option ℚ × Nat) :=
  match consume_whitespace inp pos with
  | .panic m => .panic m
  | .ok p1 =>
    let r := read_until inp p1 [' ', '>', ']', '[', '/', '\n', '\r'] true
    .ok (parseF64? r.1, r.2)

/-- tokenizer.rs: `Tokenizer::read_n_chars` loop — exactly `n` characters,
panicking (`unwrap`) at EOF. -/
def read_n_go (inp : Input) (pos : Nat) : Nat → RustResult (List Char × Nat)
  | 0 => .ok ([], pos)
  | n + 1 =>
    match next_char inp pos with
    | none => .panic "called Option::unwrap on a None value"
    | some (c, p) =>
      match read_n_go inp p n with
      | .ok (cs, pe) => .ok (c :: cs, pe)
      | .panic m => .panic m

/-- tokenizer.rs: `Tokenizer::read_object_header` — `N G obj`.  The two
integer parses are `unwrap`ed (panic on failure); a keyword other than
`obj` is a returned error. -/
def read_object_header (inp : Input) (pos : Nat) :
    RustResult (Except String PDFObjectHeader × Nat) :=
  let r1 := read_until inp pos [' '] false
  match parseU64? r1.1 with
  | none => .panic "called Result::unwrap() on an Err value"
  | some object_number =>
    let r2 := read_until inp r1.2 [' '] false
    match parseU64? r2.1 with
    | none => .panic "called Result::unwrap() on an Err value"
    | some generation_number =>
      match read_n_go inp r2.2 3 with
      | .panic m => .panic m
      | .ok (cs, p) =>
        if String.mk cs = "obj" then
          .ok (.ok ⟨object_number, generation_number⟩, p)
        else .ok (.error "Unexpected value while reading object header", p)

/-- tokenizer.rs: `Tokenizer::read_object_reference` — speculatively reads
`N G R`; integer parse failures are returned errors (the caller rewinds),
EOF at the final character is an `unwrap` panic. -/
def read_object_reference (inp : Input) (pos : Nat) :
    RustResult (Except String PDFToken × Nat) :=
  let r1 := read_until inp pos [' '] false
  match parseU64? r1.1 with
  | none => .ok (.error "invalid digit found in string", r1.2)
  | some object_number =>
    let r2 := read_until inp r1.2 [' '] false
    match parseU64? r2.1 with
    | none => .ok (.error "invalid digit found in string", r2.2)
    | some generation_number =>
      match next_char inp r2.2 with
      | none => .panic "called Option::unwrap on a None value"
      | some (c, p) =>
        if c = 'R' then
          .ok (.ok (.ObjectReference ⟨object_number, generation_number⟩), p)
        else .ok (.error "Found unexpected char while reading object reference", p)

/-- Value of the three-character octal escape in a literal string
(`u32::from_str_radix(_, 8).unwrap()`): panics unless all three characters
are octal digits. -/
def octalVal3 (c1 c2 c3 : Char) : RustResult Nat :=
  if c1.isDigit ∧ c1.toNat ≤ 55 ∧ c2.isDigit ∧ c2.toNat ≤ 55 ∧ c3.isDigit ∧ c3.toNat ≤ 55 then
    .ok (((c1.toNat - 48) * 8 + (c2.toNat - 48)) * 8 + (c3.toNat - 48))
  else .panic "invalid digit found in string"

/-- Loop of `Tokenizer::read_literal_string` over the remaining characters
(the first character handed to it is the opening parenthesis).  `depth` is
the parenthesis stack's size.  Returns the result and the number of
characters consumed; unknown escapes are returned errors, EOF is an
`unwrap` panic. -/
def read_lit_go : List Char → Nat → String → RustResult (Except String String × Nat)
  | [], _, _ => .panic "called Option::unwrap on a None value"
  | c :: rest, depth, acc =>
    if c = '(' then
      let acc2 := if depth ≠ 0 then acc.push c else acc
      match read_lit_go rest (depth + 1) acc2 with
      | .ok (res, n) => .ok (res, n + 1)
      | .panic m => .panic m
    else if c = ')' then
      if depth - 1 = 0 then .ok (.ok acc, 1)
      else
        match read_lit_go rest (depth - 1) (acc.push c) with
        | .ok (res, n) => .ok (res, n + 1)
        | .panic m => .panic m
    else if c = '\\' then
      match rest with
      | [] => .panic "called Option::unwrap on a None value"
      | e :: rest2 =>
        if e = '\\' ∨ e = '(' ∨ e = ')' then
          match read_lit_go rest2 depth (acc.push e) with
          | .ok (res, n) => .ok (res, n + 2)
          | .panic m => .panic m
        else if e = 'r' then
          match read_lit_go rest2 depth (acc.push '\r') with
          | .ok (res, n) => .ok (res, n + 2)
          | .panic m => .panic m
        else if e = 'n' then
          match read_lit_go rest2 depth (acc.push '\n') with
          | .ok (res, n) => .ok (res, n + 2)
          | .panic m => .panic m
        else if e = 'b' then
          match read_lit_go rest2 depth (acc.push (Char.ofNat 8)) with
          | .ok (res, n) => .ok (res, n + 2)
          | .panic m => .panic m
        else if e = 't' then
          match read_lit_go rest2 depth (acc.push '\t') with
          | .ok (res, n) => .ok (res, n + 2)
          | .panic m => .panic m
        else if e = 'f' then
          match read_lit_go rest2 depth (acc.push (Char.ofNat 12)) with
          | .ok (res, n) => .ok (res, n + 2)
          | .panic m => .panic m
        else if e.isDigit then
          match rest2 with
          | [] => .panic "called Option::unwrap on a None value"
          | [_] => .panic "called Option::unwrap on a None value"
          | o2 :: o3 :: rest3 =>
            match octalVal3 e o2 o3 with
            | .panic m => .panic m
            | .ok code =>
              match read_lit_go rest3 depth (acc.push (Char.ofNat code)) with
              | .ok (res, n) => .ok (res, n + 4)
              | .panic m => .panic m
        else .ok (.error "Unhandled escaped character in literal string", 2)
    else
      match read_lit_go rest depth (acc.push c) with
      | .ok (res, n) => .ok (res, n + 1)
      | .panic m => .panic m

/-- tokenizer.rs: `Tokenizer::read_literal_string`, starting at the opening
parenthesis (callers seek back one character before invoking it). -/
def read_literal_string (inp : Input) (pos : Nat) :
    RustResult (Except String String × Nat) :=
  match read_lit_go (inp.drop pos) 0 "" with
  | .ok (res, n) => .ok (res, pos + n)
  | .panic m => .panic m

/-- Skip-loop helper for the `' ' | '\n' | '\r' => continue` arms of
`Tokenizer::next`: first character outside `skipSet` plus the count of
skipped characters; `none` at EOF (where the Rust `unwrap` panics). -/
def skip_chars_go (skipSet : List Char) : List Char → Option (Char × Nat)
  | [] => none
  | c :: rest =>
    if skipSet.contains c then
      match skip_chars_go skipSet rest with
      | some (c2, n) => some (c2, n + 1)
      | none => none
    else some (c, 0)

/-- Result of one `Tokenizer::next` call: an `Ok` token, a returned `Err`,
or a panic.  `ok`/`err` carry the cursor position and state stack after
the call. -/
inductive NextResult where
  | ok (t : PDFToken) (pos : Nat) (stack : List TokenizerState)
  | err (msg : String) (pos : Nat) (stack : List TokenizerState)
  | panic (msg : String)
deriving DecidableEq, Repr

/-- True exactly on `NextResult.panic`. -/
def NextResult.isPanicN : NextResult → Bool
  | .panic _ => true
  | _ => false

/-- The token-or-error part of a `NextResult` (what the Rust call returns). -/
def NextResult.tok? : NextResult → Option (Except String PDFToken)
  | .ok t _ _ => some (.ok t)
  | .err m _ _ => some (.error m)
  | .panic _ => none

/-- The `(position, state_stack)` left behind by a returning call. -/
def NextResult.place? : NextResult → Option (Nat × List TokenizerState)
  | .ok _ p s => some (p, s)
  | .err _ p s => some (p, s)
  | .panic _ => none

/-- tokenizer.rs: `Tokenizer::next` (`PDFTokenize for Tokenizer`).  The
dispatch state is the stack top at entry (panic when the stack is empty);
the whitespace `continue` arms are folded into `skip_chars_go`. -/
def next (inp : Input) (pos : Nat) (stack : List TokenizerState) : NextResult :=
  match stack with
  | [] => .panic "State stack is empty!"
  | state :: _ =>
    match state with
    | .Start =>
      match skip_chars_go [' ', '\n', '\r'] (inp.drop pos) with
      | none => .panic "called Option::unwrap on a None value"
      | some (c, k) =>
        let p := pos + k + 1
        if c = '%' then
          let r := read_until inp p ['\n', '\r'] false
          let comment := r.1.trim
          if comment = "%EOF" then .ok .DocumentEnd r.2 (.DocumentEnd :: stack.tail)
          else .ok (.Comment comment) r.2 stack
        else if '1' ≤ c ∧ c ≤ '9' then
          let stack2 := TokenizerState.Object :: stack.tail
          match read_object_header inp (p - 1) with
          | .panic m => .panic m
          | .ok (.ok h, p2) => .ok (.ObjectHeader h) p2 stack2
          | .ok (.error m, p2) => .err m p2 stack2
        else if c = 's' then
          let r := read_until inp (p - 1) [' ', '\n', '\r'] false
          if r.1 = "startxref" then
            match read_number inp r.2 with
            | .panic m => .panic m
            | .ok (none, _) => .panic "called Result::unwrap() on an Err value"
            | .ok (some q, p2) => .ok (.StartXRef (ratAsU64 q)) p2 stack
          else .panic "Found unexpected keyword while reading object"
        else if c = 'x' then
          let r := read_until inp (p - 1) [' ', '\n', '\r'] false
          if r.1 = "xref" then .ok .XRefSectionBegin r.2 (.XRefSection :: stack)
          else .panic "Found unexpected keyword while reading object"
        else if c = 't' then
          let r := read_until inp (p - 1) [' ', '\n', '\r'] false
          if r.1 = "trailer" then .ok .TrailerBegin r.2 (.Trailer :: stack)
          else .panic "Found unexpected keyword while reading object"
        else .panic "Top level char not handled"
    | .DocumentEnd => .err "End of document reached!" pos stack
    | .Object =>
      match skip_chars_go [' ', '\n', '\r'] (inp.drop pos) with
      | none => .panic "called Option::unwrap on a None value"
      | some (c, k) =>
        let p := pos + k + 1
        if c = '<' then
          match next_char inp p with
          | none => .panic "called Option::unwrap on a None value"
          | some (c2, p2) =>
            if c2 = '<' then .ok .DictionaryStart p2 (.DictionaryKey :: stack)
            else .err "Unexpected character while parsing dictionary start" p2 stack
        else if c = '[' then .ok .ArrayStart p (.ListValue :: stack)
        else if c = 's' then
          let r := read_until inp (p - 1) [' ', '\n', '\r'] false
          if r.1 = "stream" then
            match consume_whitespace inp r.2 with
            | .panic m => .panic m
            | .ok p2 => .ok .StreamBegin p2 (.Stream :: stack)
          else .panic "Found unexpected keyword while reading object"
        else if c = 'e' then
          let r := read_until inp (p - 1) [' ', '\n', '\r'] false
          if r.1.trim = "endobj" then .ok .ObjectEnd r.2 (.Start :: stack.tail)
          else .panic "Found unexpected keyword while reading object"
        else if c = '(' then
          match read_literal_string inp (p - 1) with
          | .panic m => .panic m
          | .ok (.ok s, p2) => .ok (.String s) p2 stack
          | .ok (.error m, p2) => .err m p2 stack
        else .panic "Unhandled char while looking for object"
    | .DictionaryKey =>
      match skip_chars_go [' ', '\n', '\r'] (inp.drop pos) with
      | none => .panic "called Option::unwrap on a None value"
      | some (c, k) =>
        let p := pos + k + 1
        if c = '/' then
          let r := read_until inp p [' ', '/', '<', '[', '(', '\r', '\n'] true
          .ok (.Name r.1) r.2 (.DictionaryValue :: stack)
        else if c = '>' then
          match next_char inp p with
          | none => .panic "called Option::unwrap on a None value"
          | some (c2, p2) =>
            if c2 = '>' then
              match stack.tail with
              | [] => .panic "called Option::unwrap on a None value"
              | s2 :: rest2 =>
                if s2 = .DictionaryValue then .ok .DictionaryEnd p2 rest2
                else .ok .DictionaryEnd p2 (s2 :: rest2)
            else .err "Found unexpected character while parsing dictionary" p2 stack
        else .panic "Unhandled char while looking for dictionary key"
    | .DictionaryValue =>
      match skip_chars_go [' ', '\n', '\r'] (inp.drop pos) with
      | none => .panic "called Option::unwrap on a None value"
      | some (c, k) =>
        let p := pos + k + 1
        if c = '[' then .ok .ArrayStart p (.ListValue :: stack.tail)
        else if c = '/' then
          let r := read_until inp p [' ', ']', '/', '\n', '>'] true
          .ok (.Name r.1) r.2 stack.tail
        else if c = 't' ∨ c = 'f' then
          let r := read_until inp (p - 1) ['\n', '/', '>'] true
          let t := r.1.trim
          if t = "true" then .ok (.Boolean true) r.2 stack.tail
          else if t = "false" then .ok (.Boolean false) r.2 stack.tail
          else .panic "Unexpected value while parsing dictionary value"
        else if c.isDigit ∨ c = '-' then
          let off := p - 1
          match read_object_reference inp off with
          | .panic m => .panic m
          | .ok (.ok tok, p2) => .ok tok p2 stack.tail
          | .ok (.error _, _) =>
            match read_number inp off with
            | .panic m => .panic m
            | .ok (none, _) => .panic "called Result::unwrap() on an Err value"
            | .ok (some q, p2) => .ok (.Number q) p2 stack.tail
        else if c = '<' then
          match next_char inp p with
          | none => .panic "called Option::unwrap on a None value"
          | some (c2, p2) =>
            if c2 = '<' then .ok .DictionaryStart p2 (.DictionaryKey :: stack)
            else if c2.isAlphanum then
              let r := read_until inp p2 ['>'] false
              match hex_string_to_bytes r.1 with
              | .panic m => .panic m
              | .ok bs => .ok (.HexString bs) r.2 stack.tail
            else .err "Unexpected character while parsing dictionary/hex-string start" p2 stack
        else if c = 'n' then
          let r := read_until inp (p - 1) [']', ' ', '\n'] true
          if r.1 = "null" then .ok .Null r.2 stack
          else .err "Unexpected string while looking for null" r.2 stack
        else if c = '(' then
          match read_literal_string inp (p - 1) with
          | .panic m => .panic m
          | .ok (.ok s, p2) => .ok (.String s) p2 stack.tail
          | .ok (.error m, p2) => .err m p2 stack.tail
        else .err "Unhandled char while looking for dictionary value" p stack
    | .ListValue =>
      match skip_chars_go [' ', '\n', '\r'] (inp.drop pos) with
      | none => .panic "called Option::unwrap on a None value"
      | some (c, k) =>
        let p := pos + k + 1
        if c = ']' then .ok .ArrayEnd p stack.tail
        else if c = '[' then .ok .ArrayStart p (.ListValue :: stack)
        else if c = '/' then
          let r := read_until inp p [' ', ']'] true
          .ok (.Name r.1) r.2 stack
        else if c.isDigit ∨ c = '-' then
          let off := p - 1
          match read_object_reference inp off with
          | .panic m => .panic m
          | .ok (.ok tok, p2) => .ok tok p2 stack
          | .ok (.error _, _) =>
            match read_number inp off with
            | .panic m => .panic m
            | .ok (none, _) => .panic "called Result::unwrap() on an Err value"
            | .ok (some q, p2) => .ok (.Number q) p2 stack
        else if c = '<' then
          match next_char inp p with
          | none => .panic "called Option::unwrap on a None value"
          | some (c2, p2) =>
            if c2 = '<' then .ok .DictionaryStart p2 (.DictionaryKey :: stack)
            else if c2.isAlphanum then
              let r := read_until inp p2 ['>'] false
              match hex_string_to_bytes r.1 with
              | .panic m => .panic m
              | .ok bs => .ok (.HexString bs) r.2 stack
            else .err "Unexpected character while parsing dictionary/hex-string start" p2 stack
        else if c = 'n' then
          let r := read_until inp (p - 1) [']', ' ', '\n'] true
          if r.1 = "null" then .ok .Null r.2 stack
          else .err "Unexpected string while looking for null" r.2 stack
        else if c = 't' ∨ c = 'f' then
          let r := read_until inp (p - 1) [']', ' ', '>', '\n'] true
          if r.1 = "true" then .ok (.Boolean true) r.2 stack
          else if r.1 = "false" then .ok (.Boolean false) r.2 stack
          else .err "Unexpected string while looking for null" r.2 stack
        else if c = '(' then
          match read_literal_string inp (p - 1) with
          | .panic m => .panic m
          | .ok (.ok s, p2) => .ok (.String s) p2 stack
          | .ok (.error m, p2) => .err m p2 stack
        else .err "Unhandled char while looking for list value" p stack
    | .Stream => .err "next() called in Stream" pos stack
    | .StreamEnd =>
      match skip_chars_go [' ', '\n', '\r'] (inp.drop pos) with
      | none => .panic "called Option::unwrap on a None value"
      | some (c, k) =>
        let p := pos + k + 1
        if c = 'e' then
          let r := read_until inp (p - 1) [' ', '\n', '\r'] false
          if r.1 = "endstream" then .ok .StreamEnd r.2 stack.tail
          else .panic "Found unexpected keyword while reading object"
        else .err "Unhandled char expected streamend" p stack
    | .XRefSection =>
      match read_number inp pos with
      | .panic m => .panic m
      | .ok (none, _) => .panic "called Result::unwrap() on an Err value"
      | .ok (some q1, p1) =>
        let p2 := match next_char inp p1 with
          | some (_, pp) => pp
          | none => p1
        match read_number inp p2 with
        | .panic m => .panic m
        | .ok (none, _) => .panic "called Result::unwrap() on an Err value"
        | .ok (some q2, p3) =>
          let r := read_until inp p3 ['\n'] false
          .ok (.XRefSubSectionHeader ⟨ratAsU64 q1, ratAsU64 q2⟩) r.2 (.XRefEntry :: stack)
    | .XRefEntry =>
      match read_number inp pos with
      | .panic m => .panic m
      | .ok (none, _) => .panic "called Result::unwrap() on an Err value"
      | .ok (some q1, p1) =>
        let p2 := match next_char inp p1 with
          | some (_, pp) => pp
          | none => p1
        match read_number inp p2 with
        | .panic m => .panic m
        | .ok (none, _) => .panic "called Result::unwrap() on an Err value"
        | .ok (some q2, p3) =>
          let r := read_until inp p3 ['\n'] false
          let t := r.1.trim
          if t = "f" then .ok (.XRefEntryTok ⟨ratAsU64 q1, ratAsU64 q2, true⟩) r.2 stack
          else if t = "n" then .ok (.XRefEntryTok ⟨ratAsU64 q1, ratAsU64 q2, false⟩) r.2 stack
          else .err "Unexpected value while parsing xref entry" r.2 stack
    | .Trailer =>
      match skip_chars_go ['\n'] (inp.drop pos) with
      | none => .panic "called Option::unwrap on a None value"
      | some (c, k) =>
        let p := pos + k + 1
        if c = '<' then
          match next_char inp p with
          | none => .panic "called Option::unwrap on a None value"
          | some (c2, p2) =>
            if c2 = '<' then .ok .DictionaryStart p2 (.DictionaryKey :: stack.tail)
            else .err "Unexpected character while parsing trailer dictionary" p2 stack
        else .err "Unexpected character while looking for trailer dictionary" p stack

/-- tokenizer.rs: `Tokenizer::peak_next` — snapshot `(position,
state_stack)`, delegate to `next`, restore both, return the token result.
A panic inside `next` unwinds without restoring. -/
def peak_next (inp : Input) (pos : Nat) (stack : List TokenizerState) : NextResult :=
  match next inp pos stack with
  | .ok t _ _ => .ok t pos stack
  | .err m _ _ => .err m pos stack
  | .panic m => .panic m

/-- tokenizer.rs: `Tokenizer::get_stream` — `read_exact` of `num_bytes`
raw bytes (panicking at EOF), then pop the current state and push
`StreamEnd`. -/
def get_stream (inp : Input) (pos : Nat) (stack : List TokenizerState) (num_bytes : Nat) :
    RustResult (List Nat × Nat × List TokenizerState) :=
  if pos + num_bytes ≤ inp.length then
    match stack with
    | [] => .panic "called Option::unwrap on a None value"
    | _ :: rest =>
      .ok (((inp.drop pos).take num_bytes).map Char.toNat, pos + num_bytes,
        .StreamEnd :: rest)
  else .panic "failed to fill whole buffer"

/-! ## Content-stream lexer (content_stream_lexer.rs)

The nom combinators are modelled as functions
`P α = List Char → Option (List Char × α)` over the remaining input
(`none` is a recoverable nom `Err::Error`; the parsers in this file use no
`Err::Failure`).  `many0`/`many1` carry explicit fuel together with nom's
infinite-loop guard (error on a non-consuming inner success). -/

/-- content_stream_lexer.rs: `ContentToken`. -/
inductive ContentToken where
  | Cm (m : List ℚ)
  | BeginMarkedContent (s : String)
  | EndMarkedContent
  | StrokingColorSpaceGrey (q : ℚ)
  | ColorSpaceGrey (q : ℚ)
  | LineWidth (q : ℚ)
  | Move (p : ℚ × ℚ)
  | Line (p : ℚ × ℚ)
  | StrokePath
  | BeginMarkedContentWithProperties
  | BeginTextObject
  | EndTextObject
  | SetTextMatrix (m : List ℚ)
  | TextFont (f : String × ℚ)
  | ShowTextString (s : String)
  | SetFlatnessTolerance (q : ℚ)
  | EndPath
  | FillPathEvenOdd
  | SaveGraphicsState
  | RestoreGraphicsState
  | PaintXObject (s : String)
deriving DecidableEq, Repr

/-- A nom parser over complete input. -/
abbrev P (α : Type) : Type := List Char → Option (List Char × α)

/-- nom `map`. -/
def mapP {α β : Type} (p : P α) (f : α → β) : P β := fun s =>
  match p s with
  | some (r, a) => some (r, f a)
  | none => none

/-- nom `char`. -/
def charP (c : Char) : P Char := fun s =>
  match s with
  | d :: rest => if d = c then some (rest, c) else none
  | [] => none

/-- nom `tag`. -/
def tagP (t : List Char) : P (List Char) := fun s =>
  if t.isPrefixOf s then some (s.drop t.length, t) else none

/-- nom whitespace class for `multispace0`/`multispace1`. -/
def isMultispace (c : Char) : Bool := c = ' ' ∨ c = '\t' ∨ c = '\r' ∨ c = '\n'

/-- Count of leading `multispace` characters. -/
def takeMSCount : List Char → Nat
  | [] => 0
  | c :: rest => if isMultispace c then takeMSCount rest + 1 else 0

/-- nom `multispace0`. -/
def multispace0P : P Unit := fun s => some (s.drop (takeMSCount s), ())

/-- nom `multispace1`. -/
def multispace1P : P Unit := fun s =>
  if takeMSCount s = 0 then none else some (s.drop (takeMSCount s), ())

/-- Count of leading alphanumeric (ASCII) characters. -/
def takeAlnumCount : List Char → Nat
  | [] => 0
  | c :: rest => if c.isAlphanum then takeAlnumCount rest + 1 else 0

/-- nom `alphanumeric1`. -/
def alphanumeric1P : P (List Char) := fun s =>
  if takeAlnumCount s = 0 then none
  else some (s.drop (takeAlnumCount s), s.take (takeAlnumCount s))

/-- nom `character::complete::u64`: one or more digits, overflow is an
error. -/
def u64P : P Nat := fun s =>
  if takeDigitsCount s = 0 then none
  else if digitsToNat (s.take (takeDigitsCount s)) < 2 ^ 64 then
    some (s.drop (takeDigitsCount s), digitsToNat (s.take (takeDigitsCount s)))
  else none

/-- nom `number::complete::double` on its decimal-literal domain (see
`recogFloat`). -/
def doubleP : P ℚ := fun s =>
  match recogFloat s with
  | some (k, q) => some (s.drop k, q)
  | none => none

/-- nom `pair`. -/
def pairP {α β : Type} (a : P α) (b : P β) : P (α × β) := fun s =>
  match a s with
  | none => none
  | some (s1, va) =>
    match b s1 with
    | none => none
    | some (s2, vb) => some (s2, (va, vb))

/-- nom `separated_pair`. -/
def separated_pairP {α β γ : Type} (a : P α) (sep : P β) (b : P γ) : P (α × γ) := fun s =>
  match a s with
  | none => none
  | some (s1, va) =>
    match sep s1 with
    | none => none
    | some (s2, _) =>
      match b s2 with
      | none => none
      | some (s3, vb) => some (s3, (va, vb))

/-- nom `delimited`. -/
def delimitedP {α β γ : Type} (a : P α) (b : P β) (c : P γ) : P β := fun s =>
  match a s with
  | none => none
  | some (s1, _) =>
    match b s1 with
    | none => none
    | some (s2, vb) =>
      match c s2 with
      | none => none
      | some (s3, _) => some (s3, vb)

/-- nom `preceded`. -/
def precededP {α β : Type} (a : P α) (b : P β) : P β := fun s =>
  match a s with
  | none => none
  | some (s1, _) =>
    match b s1 with
    | none => none
    | some (s2, vb) => some (s2, vb)

/-- nom `count`. -/
def countP {α : Type} (p : P α) : Nat → P (List α)
  | 0 => fun s => some (s, [])
  | n + 1 => fun s =>
    match p s with
    | none => none
    | some (s1, a) =>
      match countP p n s1 with
      | none => none
      | some (s2, as1) => some (s2, a :: as1)

/-- nom `alt` over a list of alternatives. -/
def altP {α : Type} : List (P α) → P α
  | [] => fun _ => none
  | p :: ps => fun s =>
    match p s with
    | some r => some r
    | none => altP ps s

/-- nom `many0` loop with fuel; on inner failure it STOPS and succeeds
with the items so far (the remaining input is simply returned); `none`
models nom's non-consumption error (and fuel exhaustion, unreachable for
consuming parsers). -/
def many0go {α : Type} (p : P α) : Nat → List Char → Option (List Char × List α)
  | 0, _ => none
  | fuel + 1, s =>
    match p s with
    | none => some (s, [])
    | some (rest, a) =>
      if rest.length = s.length then none
      else
        match many0go p fuel rest with
        | some (r2, as1) => some (r2, a :: as1)
        | none => none

/-- nom `many1`: a first mandatory item, then the `many0` loop, with fuel
adequate for any consuming parser. -/
def many1P {α : Type} (p : P α) : P (List α) := fun s =>
  match p s with
  | none => none
  | some (rest, a) =>
    if rest.length = s.length then none
    else
      match many0go p (rest.length + 1) rest with
      | some (r2, as1) => some (r2, a :: as1)
      | none => none

/-- content_stream_lexer.rs: `parse_tag` — `/Name` surrounded by
`multispace0` … `multispace1`. -/
def parse_tag : P (List Char) :=
  delimitedP multispace0P (precededP (charP '/') alphanumeric1P) multispace1P

/-- content_stream_lexer.rs: the `escaped(none_of "\\)(", backslash,
alt(tag ")", tag "("))` body of `parse_string`: characters other than
backslash and parentheses, or a backslash followed by a parenthesis;
returns the raw matched slice.  A backslash followed by anything else
(or EOF) is an error. -/
def escapedGo : List Char → Option (List Char × List Char)
  | [] => some ([], [])
  | c :: rest =>
    if c = '\\' then
      match rest with
      | [] => none
      | d :: rest2 =>
        if d = ')' ∨ d = '(' then
          match escapedGo rest2 with
          | some (r, m) => some (r, c :: d :: m)
          | none => none
        else none
    else if c = ')' ∨ c = '(' then some (c :: rest, [])
    else
      match escapedGo rest with
      | some (r, m) => some (r, c :: m)
      | none => none

/-- The `escaped` body as a `P`; the source wraps it in
`alt((esc, tag("")))`. -/
def escapedP : P (List Char) := fun s =>
  match escapedGo s with
  | some (r, m) => some (r, m)
  | none => none

/-- content_stream_lexer.rs: `parse_string` — `( … )` with the escaped
body or the empty fallback. -/
def parse_string : P (List Char) :=
  delimitedP (tagP ['(']) (altP [escapedP, tagP []]) (tagP [')'])

/-- content_stream_lexer.rs: `parse_dictionary` — `<< (/Tag u64)+ >>`. -/
def parse_dictionary : P (List (List Char × Nat)) :=
  delimitedP (tagP ['<', '<'])
    (many1P (delimitedP multispace0P
      (separated_pairP parse_tag multispace0P u64P) multispace0P))
    (tagP ['>', '>'])

/-- content_stream_lexer.rs: `parse_bdc`. -/
def parse_bdc : P ContentToken :=
  mapP (separated_pairP (separated_pairP parse_tag multispace0P parse_dictionary)
      multispace0P (tagP ['B', 'D', 'C']))
    (fun _ => ContentToken.BeginMarkedContentWithProperties)

/-- content_stream_lexer.rs: `parse_stroke_path`. -/
def parse_stroke_path : P ContentToken :=
  mapP (delimitedP multispace0P (charP 'S') multispace1P)
    (fun _ => ContentToken.StrokePath)

/-- content_stream_lexer.rs: `parse_line`. -/
def parse_line : P ContentToken :=
  mapP (separated_pairP (separated_pairP doubleP multispace1P doubleP)
      multispace1P (charP 'l'))
    (fun v => ContentToken.Line v.1)

/-- content_stream_lexer.rs: `parse_move`. -/
def parse_move : P ContentToken :=
  mapP (separated_pairP (separated_pairP doubleP multispace1P doubleP)
      multispace1P (charP 'm'))
    (fun v => ContentToken.Move v.1)

/-- content_stream_lexer.rs: `parse_line_width`. -/
def parse_line_width : P ContentToken :=
  mapP (separated_pairP doubleP multispace1P (charP 'w'))
    (fun v => ContentToken.LineWidth v.1)

/-- content_stream_lexer.rs: `parse_color_space_grey`. -/
def parse_color_space_grey : P ContentToken :=
  mapP (separated_pairP doubleP multispace1P (charP 'g'))
    (fun v => ContentToken.ColorSpaceGrey v.1)

/-- content_stream_lexer.rs: `parse_g`. -/
def parse_g : P ContentToken :=
  mapP (separated_pairP doubleP multispace1P (charP 'G'))
    (fun v => ContentToken.StrokingColorSpaceGrey v.1)

/-- content_stream_lexer.rs: `parse_flatness_tolerance`. -/
def parse_flatness_tolerance : P ContentToken :=
  mapP (separated_pairP doubleP multispace1P (charP 'i'))
    (fun v => ContentToken.SetFlatnessTolerance v.1)

/-- content_stream_lexer.rs: `parse_bmc`. -/
def parse_bmc : P ContentToken :=
  mapP (separated_pairP parse_tag multispace0P (tagP ['B', 'M', 'C']))
    (fun v => ContentToken.BeginMarkedContent (String.mk v.1))

/-- content_stream_lexer.rs: `parse_begin_text_object`. -/
def parse_begin_text_object : P ContentToken :=
  mapP (tagP ['B', 'T']) (fun _ => ContentToken.BeginTextObject)

/-- content_stream_lexer.rs: `parse_end_text_object`. -/
def parse_end_text_object : P ContentToken :=
  mapP (tagP ['E', 'T']) (fun _ => ContentToken.EndTextObject)

/-- content_stream_lexer.rs: `parse_end_marked_content`. -/
def parse_end_marked_content : P ContentToken :=
  mapP (delimitedP multispace0P (tagP ['E', 'M', 'C']) multispace1P)
    (fun _ => ContentToken.EndMarkedContent)

/-- content_stream_lexer.rs: `parse_end_path`. -/
def parse_end_path : P ContentToken :=
  mapP (delimitedP multispace0P (charP 'n') multispace1P)
    (fun _ => ContentToken.EndPath)

/-- content_stream_lexer.rs: `parse_cm`. -/
def parse_cm : P ContentToken :=
  mapP (pairP (countP (delimitedP multispace0P doubleP multispace0P) 6)
      (tagP ['c', 'm']))
    (fun v => ContentToken.Cm v.1)

/-- content_stream_lexer.rs: `parse_set_text_matrix`. -/
def parse_set_text_matrix : P ContentToken :=
  mapP (pairP (countP (delimitedP multispace0P doubleP multispace0P) 6)
      (tagP ['T', 'm']))
    (fun v => ContentToken.SetTextMatrix v.1)

/-- content_stream_lexer.rs: `parse_set_text_font`. -/
def parse_set_text_font : P ContentToken :=
  mapP (pairP (pairP parse_tag (delimitedP multispace0P doubleP multispace1P))
      (tagP ['T', 'f']))
    (fun v => ContentToken.TextFont (String.mk v.1.1, v.1.2))

/-- content_stream_lexer.rs: `parse_show_text_string`.  The shown text is
the RAW matched slice (escape backslashes included), per
`from_utf8_lossy(value.0)`. -/
def parse_show_text_string : P ContentToken :=
  mapP (separated_pairP parse_string multispace0P (tagP ['T', 'j']))
    (fun v => ContentToken.ShowTextString (String.mk v.1))

/-- content_stream_lexer.rs: `parse_fill_path_even_odd`. -/
def parse_fill_path_even_odd : P ContentToken :=
  mapP (delimitedP multispace0P (tagP ['f', '*']) multispace1P)
    (fun _ => ContentToken.FillPathEvenOdd)

/-- content_stream_lexer.rs: `parse_save_graphics_state`. -/
def parse_save_graphics_state : P ContentToken :=
  mapP (delimitedP multispace0P (charP 'q') multispace1P)
    (fun _ => ContentToken.SaveGraphicsState)

/-- content_stream_lexer.rs: `parse_restore_graphics_state`. -/
def parse_restore_graphics_state : P ContentToken :=
  mapP (delimitedP multispace0P (charP 'Q') multispace1P)
    (fun _ => ContentToken.RestoreGraphicsState)

/-- content_stream_lexer.rs: `parse_paint_x_object`. -/
def parse_paint_x_object : P ContentToken :=
  mapP (separated_pairP parse_tag multispace0P (tagP ['D', 'o']))
    (fun v => ContentToken.PaintXObject (String.mk v.1))

/-- The `alt((...))` of content_stream_lexer.rs `parse`, in source order. -/
def contentAlt : P ContentToken :=
  altP [parse_cm, parse_bmc, parse_end_marked_content, parse_g,
    parse_line_width, parse_move, parse_line, parse_stroke_path, parse_bdc,
    parse_color_space_grey, parse_begin_text_object, parse_end_text_object,
    parse_set_text_matrix, parse_set_text_font, parse_show_text_string,
    parse_flatness_tolerance, parse_end_path, parse_fill_path_even_odd,
    parse_save_graphics_state, parse_restore_graphics_state,
    parse_paint_x_object]

/-- The repeated item of the `many0` in `parse`:
`delimited(multispace0, alt(...), multispace0)`. -/
def contentItem : P ContentToken := delimitedP multispace0P contentAlt multispace0P

/-- content_stream_lexer.rs: `parse` — `many0(contentItem)` followed by
`result.unwrap()` (a nom error would panic); the UNCONSUMED REST IS
DISCARDED (`result.1`). -/
def parse (source : List Char) : RustResult (List ContentToken) :=
  match many0go contentItem (source.length + 1) source with
  | some (_, toks) => .ok toks
  | none => .panic "called Result::unwrap() on an Err value"

/-! ## Text extraction (text.rs) -/

/-- text.rs: `PositionedText`. -/
structure PositionedText where
  text : String
  x : ℚ
  y : ℚ
deriving DecidableEq, Repr

/-- text.rs: `TextObjectContent`. -/
structure TextObjectContent where
  positioned_text : List PositionedText
deriving DecidableEq, Repr

/-- The mutable locals of `get_text_objects`. -/
structure TextState where
  in_text_object : Bool
  text_matrix : Option (List ℚ)
  text_objects : List TextObjectContent
  current_text_object : TextObjectContent
deriving DecidableEq, Repr

/-- One iteration of the `get_text_objects` token loop (text.rs). -/
def textStep (st : TextState) (tok : ContentToken) : RustResult TextState :=
  if st.in_text_object then
    match tok with
    | .BeginTextObject => .panic "Unhandled nested text object"
    | .EndTextObject =>
      .ok { st with in_text_object := false,
                    text_objects := st.text_objects ++ [st.current_text_object] }
    | .SetTextMatrix m => .ok { st with text_matrix := some m }
    | .TextFont _ => .ok st
    | .ShowTextString t =>
      match st.text_matrix with
      | none => .panic "No text matrix set"
      | some m =>
        if m.length = 6 then
          .ok { st with current_text_object :=
            ⟨st.current_text_object.positioned_text ++ [⟨t, m.getD 4 0, m.getD 5 0⟩]⟩ }
        else .panic "Unexpected text matrix length"
    | _ => .panic "Unhandled token in text object"
  else
    match tok with
    | .BeginTextObject => .ok { st with in_text_object := true, current_text_object := ⟨[]⟩ }
    | _ => .ok st

/-- The `get_text_objects` loop folded over the token list. -/
def textFold : TextState → List ContentToken → RustResult TextState
  | st, [] => .ok st
  | st, tok :: rest =>
    match textStep st tok with
    | .ok st2 => textFold st2 rest
    | .panic m => .panic m

/-- text.rs: `get_text_objects`. -/
def get_text_objects (tokens : List ContentToken) : RustResult (List TextObjectContent) :=
  match textFold ⟨false, none, [], ⟨[]⟩⟩ tokens with
  | .ok st => .ok st.text_objects
  | .panic m => .panic m

/-- text.rs: `compile_grouped_text` — printing only, no value. -/
def compile_grouped_text (_ : List TextObjectContent) : Unit := ()

/-! ## Pages and reader (page.rs, reader.rs)

`dec` is the external flate2 decompressor (`PDFStream::decompress`): raw
stream bytes to decompressed bytes, panicking on corrupt input. -/

/-- page.rs: `PDFPage::get_text` — decompress the contents stream, lex it,
group the text, print it, then `panic!()` unconditionally. -/
def get_text (dec : List Nat → RustResult (List Nat)) (page : PDFPage) : RustResult Unit :=
  match page.contents.value with
  | .Stream _ bytes =>
    match dec bytes with
    | .panic m => .panic m
    | .ok stream_bytes =>
      match parse (stream_bytes.map Char.ofNat) with
      | .panic m => .panic m
      | .ok tokens =>
        match get_text_objects tokens with
        | .panic m => .panic m
        | .ok positioned_text =>
          let _ := compile_grouped_text positioned_text
          .panic "explicit panic"
  | _ => .panic "Value is not Stream"

/-- reader.rs: `read_u64` on the byte cursor — big-endian value of the
next `num_bytes` bytes; widths above 8 or EOF panic. -/
def read_u64 (bs : List Nat) (num_bytes : Nat) : RustResult (Nat × List Nat) :=
  if 8 < num_bytes then .panic "Width exceeds size of u64"
  else if bs.length < num_bytes then .panic "failed to fill whole buffer"
  else .ok ((bs.take num_bytes).foldl (fun acc b => acc * 256 + b) 0, bs.drop num_bytes)

/-- Big-endian value of a byte list (what `read_u64` computes). -/
def beBytes (bs : List Nat) : Nat := bs.foldl (fun acc b => acc * 256 + b) 0

/-- The record loop of `Reader::parse_xref_stream`, with fuel (each
iteration consumes the one-byte type field, so `bytes.length` suffices). -/
def xrefLoop (w2 w3 : Nat) : Nat → List Nat → RustResult (List XRefEntry)
  | _, [] => .ok []
  | 0, _ => .ok []
  | fuel + 1, t :: rest =>
    if t = 0 then
      match read_u64 rest w2 with
      | .panic m => .panic m
      | .ok (f2, rest2) =>
        match read_u64 rest2 w3 with
        | .panic m => .panic m
        | .ok (f3, rest3) =>
          match xrefLoop w2 w3 fuel rest3 with
          | .ok es => .ok (.Free ⟨f2, f3⟩ :: es)
          | .panic m => .panic m
    else if t = 1 then
      match read_u64 rest w2 with
      | .panic m => .panic m
      | .ok (f2, rest2) =>
        match read_u64 rest2 w3 with
        | .panic m => .panic m
        | .ok (f3, rest3) =>
          match xrefLoop w2 w3 fuel rest3 with
          | .ok es => .ok (.Uncompressed ⟨f2, f3⟩ :: es)
          | .panic m => .panic m
    else if t = 2 then
      match read_u64 rest w2 with
      | .panic m => .panic m
      | .ok (f2, rest2) =>
        match read_u64 rest2 w3 with
        | .panic m => .panic m
        | .ok (f3, rest3) =>
          match xrefLoop w2 w3 fuel rest3 with
          | .ok es => .ok (.Compressed ⟨f2, f3⟩ :: es)
          | .panic m => .panic m
    else .panic "Unsupported xref entry type"

/-- reader.rs: `Reader::parse_xref_stream`.  `assert!(widths.first() ==
Some(&1))` comes FIRST: any other leading width (including the claimed
`W[0] == 0` default) panics with the message `First width was not zero!`;
then the second and third widths are fetched (panicking when absent) and
the record loop runs. -/
def parse_xref_stream (widths : List Nat) (bytes : List Nat) : RustResult (List XRefEntry) :=
  if widths.head? ≠ some 1 then .panic "First width was not zero!"
  else
    match widths[1]? with
    | none => .panic "Not enough values in widths array"
    | some w2 =>
      match widths[2]? with
      | none => .panic "Not enough values in widths array"
      | some w3 => xrefLoop w2 w3 bytes.length bytes

/-- reader.rs: `Reader::get_root_object`.  Returns the `Result` value and
the (possibly updated) `PDF` record (`xref_table` assignment).  With a
trailer present, the `Root` entry is only pattern-matched for a debug log
and the function falls through to `Err("")`; the startxref/xref-stream
path runs only with NO trailer. -/
def get_root_object (dec : List Nat → RustResult (List Nat)) (pdf : PDF) :
    RustResult (Except String PDFObject × PDF) :=
  match pdf.trailer with
  | some _ => .ok (.error "", pdf)
  | none =>
    match pdf.startxref with
    | none => .ok (.error "", pdf)
    | some startxref =>
      match get_object_at_offset pdf startxref with
      | none => .panic "called Option::unwrap on a None value"
      | some obj =>
        match obj.value with
        | .Stream sdict sbytes =>
          match dictGet sdict "Length" with
          | none => .panic "XRef stream dictionary has no Length member"
          | some (.Number _) =>
            match dictGet sdict "W" with
            | none => .panic "No W entry in xref stream dictionary"
            | some w =>
              let width_vector : List Nat :=
                match w with
                | .Array width_array =>
                  width_array.filterMap (fun v =>
                    match v with
                    | .Number q => some (ratAsU64 q)
                    | _ => none)
                | _ => []
              match dictGet sdict "Size" with
              | none => .panic "XRef stream dictionary has no Size member"
              | some (.Number _) =>
                match dec sbytes with
                | .panic m => .panic m
                | .ok decompressed_bytes =>
                  match parse_xref_stream width_vector decompressed_bytes with
                  | .panic m => .panic m
                  | .ok entries =>
                    let pdf2 := { pdf with xref_table := some ⟨none, entries⟩ }
                    match dictGet sdict "Root" with
                    | none => .panic "No Root entry in xref stream dictionary"
                    | some (.ObjectReference object_ref) =>
                      match get_object_by_reference pdf2 object_ref with
                      | some o => .ok (.ok o, pdf2)
                      | none => .panic "Root object not found"
                    | some _ => .panic "Root object was not object reference"
              | some _ => .panic "XRef size cannot be converted"
          | some _ => .panic "XRef stream length cannot be converted"
        | _ => .panic "No stream object at startxref location"

/-- reader.rs: `Reader::get_pages_dict` — every failure path is a panic
(`unwrap`/`expect`); on success the `Pages` reference is dereferenced to a
dictionary. -/
def get_pages_dict (pdf : PDF) (root : PDFObject) : RustResult PDFDictionary :=
  match root.value with
  | .Dictionary d =>
    match dictGet d "Pages" with
    | none => .panic "Root dictionary has no pages member"
    | some (.ObjectReference pages_obj_ref) =>
      match get_object_by_reference pdf pages_obj_ref with
      | none => .panic "Pages dictionary object not found"
      | some o =>
        match o.value with
        | .Dictionary pd => .ok pd
        | _ => .panic "Value is not Dictionary"
    | some _ => .panic "Value is not ObjectReference"
  | _ => .panic "Value is not Dictionary"

/-- The per-kid body of the `Reader::read_pages` loop: dereference the kid
(panicking unless it is a reference to an existing dictionary object), then
build the page from its `Contents` entry — ONLY a single
`PDFValue::ObjectReference` is accepted; an array (or anything else, or a
missing entry) is the returned error. -/
def readPageKid (pdf : PDF) (kid : PDFValue) : RustResult (Except String PDFPage) :=
  match kid with
  | .ObjectReference r =>
    match get_object_by_reference pdf r with
    | none => .panic "Page object not found"
    | some object =>
      match object.value with
      | .Dictionary page_dict =>
        match dictGet page_dict "Contents" with
        | some (.ObjectReference object_header) =>
          match get_object_by_reference pdf object_header with
          | none => .panic "called Option::unwrap on a None value"
          | some contents_obj => .ok (.ok ⟨object, contents_obj⟩)
        | some _ => .ok (.error "Page dict has no Contents entry")
        | none => .ok (.error "Page dict has no Contents entry")
      | _ => .panic "called Result::unwrap() on an Err value"
  | _ => .panic "Value is not ObjectReference"

/-- The `for kid in kids` loop of `Reader::read_pages`. -/
def readKidsGo (pdf : PDF) : List PDFValue → RustResult (Except String (List PDFPage))
  | [] => .ok (.ok [])
  | kid :: rest =>
    match readPageKid pdf kid with
    | .panic m => .panic m
    | .ok (.error e) => .ok (.error e)
    | .ok (.ok page) =>
      match readKidsGo pdf rest with
      | .panic m => .panic m
      | .ok (.error e) => .ok (.error e)
      | .ok (.ok pages) => .ok (.ok (page :: pages))

/-- reader.rs: `Reader::read_pages` — a SINGLE-LEVEL walk over the
`Kids` array of the given pages dictionary (no recursion into interior
nodes, no `Type` check). -/
def read_pages (pdf : PDF) (pages_dict : PDFDictionary) :
    RustResult (Except String (List PDFPage)) :=
  match dictGet pages_dict "Kids" with
  | none => .panic "Pages dict has no kids entry"
  | some (.Array kids) => readKidsGo pdf kids
  | some _ => .panic "Value is not Array"

/-- The root/pages prefix of `Reader::build_tree`: `get_root_object`
(`unwrap`ing its `Result`), `get_pages_dict`, `read_pages`, and the
`pdf.pages` assignment. -/
def buildPages (dec : List Nat → RustResult (List Nat)) (pdf : PDF) :
    RustResult (List PDFPage × PDF) :=
  match get_root_object dec pdf with
  | .panic m => .panic m
  | .ok (.error _, _) => .panic "called Result::unwrap() on an Err value"
  | .ok (.ok root, pdf2) =>
    match get_pages_dict pdf2 root with
    | .panic m => .panic m
    | .ok pages_dict =>
      match read_pages pdf2 pages_dict with
      | .panic m => .panic m
      | .ok (.error _) => .panic "called Result::unwrap() on an Err value"
      | .ok (.ok pages) => .ok (pages, { pdf2 with pages := pages })

/-- The `for page in pages { page.get_text(..) }` loop of
`Reader::build_tree`. -/
def runPagesText (dec : List Nat → RustResult (List Nat)) :
    List PDFPage → RustResult Unit
  | [] => .ok ()
  | page :: rest =>
    match get_text dec page with
    | .panic m => .panic m
    | .ok _ => runPagesText dec rest

/-- reader.rs: `Reader::build_tree`. -/
def build_tree (dec : List Nat → RustResult (List Nat)) (pdf : PDF) : RustResult Unit :=
  match buildPages dec pdf with
  | .panic m => .panic m
  | .ok (pages, _) => runPagesText dec pages

/-- reader.rs: `Reader::parse_stream` — look up `Length` in the stream
dictionary (non-numbers and absence are returned errors), read exactly
`length as usize` raw bytes via `Tokenizer::get_stream`, then require the
`StreamEnd` token. -/
def parse_stream (inp : Input) (pos : Nat) (stack : List TokenizerState)
    (stream_dictionary : PDFDictionary) :
    RustResult (Except String PDFValue × Nat × List TokenizerState) :=
  match dictGet stream_dictionary "Length" with
  | some (.Number length) =>
    match get_stream inp pos stack (ratAsU64 length) with
    | .panic m => .panic m
    | .ok (bytes, p1, st1) =>
      match next inp p1 st1 with
      | .panic m => .panic m
      | .err m p2 st2 => .ok (.error m, p2, st2)
      | .ok t p2 st2 =>
        match t with
        | .StreamEnd => .ok (.ok (.Stream stream_dictionary bytes), p2, st2)
        | _ => .ok (.error "Unexpected token while parsing stream", p2, st2)
  | some _ => .ok (.error "Stream dictionary has a Length that is not a number", pos, stack)
  | none => .ok (.error "Stream dictionary has no Length member", pos, stack)

/-! ## Spec-side reference definition for the Pages walk (claim C3)

`specCountPageLeaves` follows the SPEC's words, for comparison with
`read_pages`: "Each node dictionary has either `Kids` (an array of
references to child nodes/pages — recurse) or is a leaf page (identified
by `Type = /Page`)"; the leaf count is the number of `Type = /Page`
leaves reachable from the given root node.  `fuel` bounds the recursion
depth (any fuel at least the tree height is exact). -/
def specCountPageLeaves (pdf : PDF) : Nat → PDFDictionary → Nat
  | 0, _ => 0
  | fuel + 1, node =>
    match dictGet node "Kids" with
    | some (.Array kids) =>
      kids.foldr (fun kid acc =>
        (match kid with
         | .ObjectReference r =>
           match get_object_by_reference pdf r with
           | some o =>
             match o.value with
             | .Dictionary d => specCountPageLeaves pdf fuel d
             | _ => 0
           | none => 0
         | _ => 0) + acc) 0
    | _ =>
      match dictGet node "Type" with
      | some (.Name s) => if s = "Page" then 1 else 0
      | _ => 0

/-! ## Concrete example documents used by the witnesses and
counterexamples -/

/-- A concrete decompressor: ignores its input and yields the four bytes
of one type-1 xref record for `W = [1, 2, 1]`. -/
def decEx : List Nat → RustResult (List Nat) := fun _ => .ok [1, 0, 0, 0]

/-- Catalog object `1 0`. -/
def exCatalog : PDFObject :=
  ⟨⟨1, 0⟩, .Dictionary [("Pages", .ObjectReference ⟨2, 0⟩)], 0⟩

/-- Pages root node `2 0` with a single leaf kid. -/
def exPagesNode : PDFObject :=
  ⟨⟨2, 0⟩, .Dictionary [("Kids", .Array [.ObjectReference ⟨3, 0⟩])], 10⟩

/-- The pages dictionary of `exPagesNode`. -/
def exPagesNodeDict : PDFDictionary := [("Kids", .Array [.ObjectReference ⟨3, 0⟩])]

/-- Leaf page object `3 0`. -/
def exPageLeaf : PDFObject :=
  ⟨⟨3, 0⟩, .Dictionary [("Type", .Name "Page"), ("Contents", .ObjectReference ⟨4, 0⟩)], 20⟩

/-- Contents stream object `4 0`. -/
def exContents : PDFObject := ⟨⟨4, 0⟩, .Stream [("Length", .Number 2)] [1, 2], 30⟩

/-- Xref stream object `5 0` at file offset 100. -/
def exXRefObj : PDFObject :=
  ⟨⟨5, 0⟩, .Stream
    [("Length", .Number 4), ("W", .Array [.Number 1, .Number 2, .Number 1]),
     ("Size", .Number 1), ("Root", .ObjectReference ⟨1, 0⟩)] [9, 9], 100⟩

/-- A consistent one-page document resolved through the startxref path. -/
def exPdf : PDF :=
  { objects := [(⟨1, 0⟩, exCatalog), (⟨2, 0⟩, exPagesNode), (⟨3, 0⟩, exPageLeaf),
      (⟨4, 0⟩, exContents), (⟨5, 0⟩, exXRefObj)],
    startxref := some 100 }

/-- A document WITH a trailer whose `Root` is a reference to an existing
object (the situation claim C2 speaks about). -/
def exTrailerPdf : PDF :=
  { objects := [(⟨1, 0⟩, exCatalog)],
    trailer := some [("Root", .ObjectReference ⟨1, 0⟩)],
    startxref := some 100 }

/-- No trailer, a startxref offset at which no object lives. -/
def exNoObjPdf : PDF := { startxref := some 100 }

/-- No trailer, startxref pointing at a non-stream object. -/
def exNonStreamPdf : PDF := { objects := [(⟨1, 0⟩, exCatalog)], startxref := some 0 }

/-- Interior pages-tree node `11 0` (has `Kids`, no `Contents`). -/
def exInterior : PDFObject :=
  ⟨⟨11, 0⟩, .Dictionary [("Type", .Name "Pages"),
    ("Kids", .Array [.ObjectReference ⟨12, 0⟩, .ObjectReference ⟨13, 0⟩])], 40⟩

/-- Leaf page `12 0` below the interior node. -/
def exLeafA : PDFObject :=
  ⟨⟨12, 0⟩, .Dictionary [("Type", .Name "Page"), ("Contents", .ObjectReference ⟨14, 0⟩)], 50⟩

/-- Leaf page `13 0` below the interior node. -/
def exLeafB : PDFObject :=
  ⟨⟨13, 0⟩, .Dictionary [("Type", .Name "Page"), ("Contents", .ObjectReference ⟨14, 0⟩)], 60⟩

/-- Contents stream `14 0` shared by the two leaves. -/
def exStreamC : PDFObject := ⟨⟨14, 0⟩, .Stream [("Length", .Number 2)] [3, 4], 70⟩

/-- Document holding the two-level pages tree. -/
def exTreePdf : PDF :=
  { objects := [(⟨11, 0⟩, exInterior), (⟨12, 0⟩, exLeafA), (⟨13, 0⟩, exLeafB),
      (⟨14, 0⟩, exStreamC)] }

/-- Root pages dictionary whose single kid is the INTERIOR node. -/
def exRootPagesDict : PDFDictionary := [("Kids", .Array [.ObjectReference ⟨11, 0⟩])]

/-- Leaf page `21 0` whose `Contents` is an ARRAY of two stream
references (the shape claim C4 speaks about). -/
def exPageArr : PDFObject :=
  ⟨⟨21, 0⟩, .Dictionary [("Type", .Name "Page"),
    ("Contents", .Array [.ObjectReference ⟨22, 0⟩, .ObjectReference ⟨23, 0⟩])], 80⟩

/-- Contents stream `22 0`. -/
def exStr1 : PDFObject := ⟨⟨22, 0⟩, .Stream [("Length", .Number 1)] [65], 90⟩

/-- Contents stream `23 0`. -/
def exStr2 : PDFObject := ⟨⟨23, 0⟩, .Stream [("Length", .Number 1)] [66], 95⟩

/-- Document holding the array-Contents page. -/
def exArrPdf : PDF :=
  { objects := [(⟨21, 0⟩, exPageArr), (⟨22, 0⟩, exStr1), (⟨23, 0⟩, exStr2)] }

/-- Stream dictionary with the non-integral `Length` `3.5` (claim C7). -/
def exLen35Dict : PDFDictionary := [("Length", .Number (7 / 2))]

/-! ## Helper lemmas -/

/-- `PDFPage::get_text` panics on every input: each failure branch panics
and the success path ends in the unconditional `panic!()`. -/
theorem get_text_panics (dec : List Nat → RustResult (List Nat)) (page : PDFPage) :
    (get_text dec page).isPanic = true := by
  unfold get_text
  split <;> try rfl
  split <;> try rfl
  split <;> try rfl
  split <;> rfl

/-- `readKidsGo` success yields exactly one page per kid. -/
theorem readKidsGo_length (pdf : PDF) :
    ∀ kids ps, readKidsGo pdf kids = .ok (.ok ps) → ps.length = kids.length := by
  intro kids
  induction kids with
  | nil =>
    intro ps h
    unfold readKidsGo at h
    cases h
    rfl
  | cons k rest ih =>
    intro ps h
    unfold readKidsGo at h
    cases hk : readPageKid pdf k <;> rw [hk] at h
    case panic => cases h
    case ok v =>
      cases v with
      | error e => cases h
      | ok page =>
        cases hr : readKidsGo pdf rest <;> rw [hr] at h
        case panic => cases h
        case ok v2 =>
          cases v2 with
          | error e => cases h
          | ok pages2 =>
            cases h
            simp [ih pages2 hr]

/-! ## Claims -/

/-- Claim C1 (confirmed): for every page, `PDFPage::get_text` does not
return normally — after lexing the content stream and grouping the text it
unconditionally panics — and consequently `Reader::build_tree` (hence
`Reader::read`) never returns normally on any document whose pages list is
nonempty. -/
theorem c1_get_text_never_returns :
    (∀ dec page, (get_text dec page).isPanic = true) ∧
    (∀ dec pdf pages pdf2, buildPages dec pdf = .ok (pages, pdf2) → pages ≠ [] →
      (build_tree dec pdf).isPanic = true) := by
  refine ⟨get_text_panics, ?_⟩
  intro dec pdf pages pdf2 h hne
  unfold build_tree
  rw [h]
  cases pages with
  | nil => exact absurd rfl hne
  | cons p rest =>
    unfold runPagesText
    cases hg : get_text dec p with
    | panic m => rfl
    | ok u =>
      have hp := get_text_panics dec p
      rw [hg] at hp
      exact absurd hp (by simp [RustResult.isPanic])

/-- Witness for C1 on the concrete one-page document `exPdf`. -/
theorem c1_witness :
    (get_text decEx ⟨exPageLeaf, exContents⟩).isPanic = true ∧
    (build_tree decEx exPdf).isPanic = true := by
  refine ⟨c1_get_text_never_returns.1 decEx ⟨exPageLeaf, exContents⟩, ?_⟩
  exact c1_get_text_never_returns.2 decEx exPdf
    [⟨exPageLeaf, exContents⟩]
    { exPdf with
        xref_table := some ⟨none, [.Uncompressed ⟨0, 0⟩]⟩,
        pages := [⟨exPageLeaf, exContents⟩] }
    (by rfl) (by simp)

/-- Claim C2 (counterexample): a document whose trailer contains `Root` as
a reference to an existing object.  `get_root_object` returns `Err("")`
instead of the dereferenced catalog: the trailer `Root` entry is never
dereferenced. -/
theorem c2_counterexample :
    get_root_object decEx exTrailerPdf = .ok (.error "", exTrailerPdf) ∧
    get_object_by_reference exTrailerPdf ⟨1, 0⟩ = some exCatalog ∧
    get_root_object decEx exTrailerPdf ≠ .ok (.ok exCatalog, exTrailerPdf) := by
  refine ⟨rfl, rfl, ?_⟩
  intro h
  rw [show get_root_object decEx exTrailerPdf = .ok (.error "", exTrailerPdf) from rfl] at h
  cases h

/-- Claim C2 (amended): when a trailer exists, `get_root_object` never
dereferences its `Root` entry — it returns `Err("")` regardless of the
trailer contents; the startxref path runs only when there is NO trailer,
locating the object whose `file_offset` equals `startxref` (panicking when
none exists or when it is not a stream). -/
theorem c2_amended :
    (∀ dec pdf t, pdf.trailer = some t →
      get_root_object dec pdf = .ok (.error "", pdf)) ∧
    (∀ dec pdf, pdf.trailer = none → pdf.startxref = none →
      get_root_object dec pdf = .ok (.error "", pdf)) ∧
    (∀ dec pdf sx, pdf.trailer = none → pdf.startxref = some sx →
      get_object_at_offset pdf sx = none →
      get_root_object dec pdf = .panic "called Option::unwrap on a None value") ∧
    (∀ dec pdf sx obj, pdf.trailer = none → pdf.startxref = some sx →
      get_object_at_offset pdf sx = some obj →
      (∀ d bs, obj.value ≠ .Stream d bs) →
      get_root_object dec pdf = .panic "No stream object at startxref location") := by
  refine ⟨?_, ?_, ?_, ?_⟩
  · intro dec pdf t h
    unfold get_root_object
    rw [h]
  · intro dec pdf h1 h2
    unfold get_root_object
    rw [h1, h2]
  · intro dec pdf sx h1 h2 h3
    simp [get_root_object, h1, h2, h3]
  · intro dec pdf sx obj h1 h2 h3 h4
    cases hv : obj.value <;>
      first
        | exact absurd hv (h4 _ _)
        | simp [get_root_object, h1, h2, h3, hv]

/-- Witness for C2 instantiating all four branches of the amendment. -/
theorem c2_amended_witness :
    get_root_object decEx exTrailerPdf = .ok (.error "", exTrailerPdf) ∧
    get_root_object decEx {} = .ok (.error "", {}) ∧
    get_root_object decEx exNoObjPdf = .panic "called Option::unwrap on a None value" ∧
    get_root_object decEx exNonStreamPdf = .panic "No stream object at startxref location" :=
  ⟨c2_amended.1 decEx exTrailerPdf [("Root", .ObjectReference ⟨1, 0⟩)] rfl,
   c2_amended.2.1 decEx {} rfl rfl,
   c2_amended.2.2.1 decEx exNoObjPdf 100 rfl rfl rfl,
   c2_amended.2.2.2 decEx exNonStreamPdf 0 exCatalog rfl rfl rfl
     (by intro d bs h; rw [show exCatalog.value = PDFValue.Dictionary
       [("Pages", .ObjectReference ⟨2, 0⟩)] from rfl] at h; cases h)⟩

/-- Claim C3 (counterexample): a pages tree whose root `Kids` holds one
INTERIOR node with two `Type = /Page` leaves below it.  The spec-side
reachable-leaf count is 2, but `read_pages` recurses into nothing: it
treats the interior node as a leaf, finds no `Contents`, and returns an
error — no list of 2 `Page` records is ever produced. -/
theorem c3_counterexample :
    read_pages exTreePdf exRootPagesDict =
      .ok (.error "Page dict has no Contents entry") ∧
    specCountPageLeaves exTreePdf 3 exRootPagesDict = 2 := by
  exact ⟨rfl, rfl⟩

/-- Claim C3 (amended): the pages walk is single-level — when
`read_pages` succeeds, it produces exactly one `Page` record per entry of
the root pages dictionary's `Kids` array (interior nodes are never
recursed into and `Type` is never consulted). -/
theorem c3_amended : ∀ pdf d ps, read_pages pdf d = .ok (.ok ps) →
    ∃ kids, dictGet d "Kids" = some (.Array kids) ∧ ps.length = kids.length := by
  intro pdf d ps h
  unfold read_pages at h
  cases hg : dictGet d "Kids" <;> rw [hg] at h
  · cases h
  · case some val =>
      cases val <;> try cases h
      case Array kids => exact ⟨kids, rfl, readKidsGo_length pdf _ _ h⟩

/-- Witness for C3's amendment on the concrete one-kid pages node. -/
theorem c3_amended_witness :
    ∃ kids, dictGet exPagesNodeDict "Kids" = some (.Array kids) ∧
      ([(⟨exPageLeaf, exContents⟩ : PDFPage)]).length = kids.length :=
  c3_amended exPdf exPagesNodeDict [⟨exPageLeaf, exContents⟩] rfl

/-- Claim C4 (counterexample): a leaf page whose `Contents` entry is an
array of references to two existing streams.  `read_pages` does not
concatenate them — it returns the error `Page dict has no Contents
entry`. -/
theorem c4_counterexample :
    readPageKid exArrPdf (.ObjectReference ⟨21, 0⟩) =
      .ok (.error "Page dict has no Contents entry") ∧
    read_pages exArrPdf [("Kids", .Array [.ObjectReference ⟨21, 0⟩])] =
      .ok (.error "Page dict has no Contents entry") := ⟨rfl, rfl⟩

/-- Claim C4 (amended): a `Contents` entry that is a single reference
resolves to that stream object directly; a `Contents` entry that is an
ARRAY (of references or anything else) is a returned error — no
concatenation with `LF` separators happens anywhere. -/
theorem c4_amended :
    (∀ pdf r obj d h c, get_object_by_reference pdf r = some obj →
      obj.value = .Dictionary d →
      dictGet d "Contents" = some (.ObjectReference h) →
      get_object_by_reference pdf h = some c →
      readPageKid pdf (.ObjectReference r) = .ok (.ok ⟨obj, c⟩)) ∧
    (∀ pdf r obj d arr, get_object_by_reference pdf r = some obj →
      obj.value = .Dictionary d →
      dictGet d "Contents" = some (.Array arr) →
      readPageKid pdf (.ObjectReference r) =
        .ok (.error "Page dict has no Contents entry")) := by
  constructor
  · intro pdf r obj d h c h1 h2 h3 h4
    simp [readPageKid, h1, h2, h3, h4]
  · intro pdf r obj d arr h1 h2 h3
    simp [readPageKid, h1, h2, h3]

/-- Witness for C4 instantiating both branches of the amendment. -/
theorem c4_amended_witness :
    readPageKid exPdf (.ObjectReference ⟨3, 0⟩) = .ok (.ok ⟨exPageLeaf, exContents⟩) ∧
    readPageKid exArrPdf (.ObjectReference ⟨21, 0⟩) =
      .ok (.error "Page dict has no Contents entry") :=
  ⟨c4_amended.1 exPdf ⟨3, 0⟩ exPageLeaf
      [("Type", .Name "Page"), ("Contents", .ObjectReference ⟨4, 0⟩)] ⟨4, 0⟩ exContents
      rfl rfl rfl rfl,
   c4_amended.2 exArrPdf ⟨21, 0⟩ exPageArr
      [("Type", .Name "Page"),
       ("Contents", .Array [.ObjectReference ⟨22, 0⟩, .ObjectReference ⟨23, 0⟩])]
      [.ObjectReference ⟨22, 0⟩, .ObjectReference ⟨23, 0⟩] rfl rfl rfl⟩

/-- Claim C5 (code bug, evaluation at the failing input): tokenizing the
hex string `<4A4B4>` (list-value context) does NOT yield
`[0x4A, 0x4B, 0x40]`.  The tokenizer consumes the first hex digit while
peeking past `<` and never seeks back, leaving `A4B4`; and
`hex_string_to_bytes` pops digit pairs from the END of the string, so the
token carries `[0x4B, 0x4A]`.  On the full five-digit string the pop loop
(after padding) yields `[0x04, 0xB4, 0xA4]`. -/
theorem c5_hex_string_eval :
    next "<4A4B4>".data 0 [.ListValue] =
      .ok (.HexString [0x4B, 0x4A]) 7 [.ListValue] ∧
    hex_string_to_bytes "4A4B4" = .ok [0x04, 0xB4, 0xA4] := ⟨rfl, rfl⟩

/-- `read_u64` on a cursor beginning with exactly the `f`-field: consumes
`f` and returns its big-endian value. -/
theorem read_u64_append (f rest : List Nat) (h : f.length ≤ 8) :
    read_u64 (f ++ rest) f.length = .ok (beBytes f, rest) := by
  unfold read_u64
  rw [if_neg (by omega), if_neg (by simp), List.take_left, List.drop_left]
  rfl

/-- `read_u64` consuming the whole cursor. -/
theorem read_u64_all (f : List Nat) (h : f.length ≤ 8) :
    read_u64 f f.length = .ok (beBytes f, []) := by
  have h2 := read_u64_append f [] h
  rwa [List.append_nil] at h2

/-- The xref record loop on an empty byte cursor stops successfully. -/
theorem xrefLoop_nil (w2 w3 fuel : Nat) : xrefLoop w2 w3 fuel [] = .ok [] := by
  cases fuel <;> rfl

/-- Claim C6 (counterexample): an xref stream with `W = [0, 2, 1]`.  The
claimed defaulting (treat every record's type as `1`) does not happen:
`parse_xref_stream` panics on the `widths.first() == Some(&1)` assertion. -/
theorem c6_counterexample :
    parse_xref_stream [0, 2, 1] [1, 0, 23, 0] = .panic "First width was not zero!" := rfl

/-- Claim C6 (amended): `parse_xref_stream` requires `W[0]` to be
EXACTLY 1 — any other first width (0 included) panics with `First width
was not zero!`; with `W[0] = 1`, a record type byte outside `{0, 1, 2}`
is a fatal error, and types 0/1/2 decode to `Free`/`Uncompressed`/
`Compressed` records with big-endian second and third fields. -/
theorem c6_amended :
    (∀ widths bytes, widths.head? ≠ some 1 →
      parse_xref_stream widths bytes = .panic "First width was not zero!") ∧
    (∀ w2 w3 t rest, 3 ≤ t →
      parse_xref_stream [1, w2, w3] (t :: rest) = .panic "Unsupported xref entry type") ∧
    (∀ w2 w3 f2 f3, f2.length = w2 → f3.length = w3 → w2 ≤ 8 → w3 ≤ 8 →
      parse_xref_stream [1, w2, w3] (0 :: (f2 ++ f3)) =
        .ok [.Free ⟨beBytes f2, beBytes f3⟩] ∧
      parse_xref_stream [1, w2, w3] (1 :: (f2 ++ f3)) =
        .ok [.Uncompressed ⟨beBytes f2, beBytes f3⟩] ∧
      parse_xref_stream [1, w2, w3] (2 :: (f2 ++ f3)) =
        .ok [.Compressed ⟨beBytes f2, beBytes f3⟩]) := by
  refine ⟨?_, ?_, ?_⟩
  · intro widths bytes h
    unfold parse_xref_stream
    rw [if_pos h]
  · intro w2 w3 t rest ht
    unfold parse_xref_stream
    rw [if_neg (by simp)]
    simp only [List.getElem?_cons_succ, List.getElem?_cons_zero, List.length_cons]
    unfold xrefLoop
    rw [if_neg (by omega), if_neg (by omega), if_neg (by omega)]
  · intro w2 w3 f2 f3 hf2 hf3 hw2 hw3
    subst hf2
    subst hf3
    refine ⟨?_, ?_, ?_⟩ <;>
    · unfold parse_xref_stream
      rw [if_neg (by simp)]
      simp only [List.getElem?_cons_succ, List.getElem?_cons_zero, List.length_cons]
      unfold xrefLoop
      simp only [reduceIte, read_u64_append f2 f3 hw2, read_u64_all f3 hw3, xrefLoop_nil]
      all_goals rfl

/-- Witness for C6 instantiating each branch of the amendment. -/
theorem c6_amended_witness :
    parse_xref_stream [0, 2, 1] [] = .panic "First width was not zero!" ∧
    parse_xref_stream [1, 1, 1] (5 :: []) = .panic "Unsupported xref entry type" ∧
    parse_xref_stream [1, 2, 1] (1 :: ([0, 23] ++ [7])) =
      .ok [.Uncompressed ⟨beBytes [0, 23], beBytes [7]⟩] :=
  ⟨c6_amended.1 [0, 2, 1] [] (by simp),
   c6_amended.2.1 1 1 5 [] (by omega),
   (c6_amended.2.2 2 1 [0, 23] [7] rfl rfl (by omega) (by omega)).2.1⟩

/-- `get_stream` success returns exactly the requested number of bytes. -/
theorem get_stream_ok_length (inp : Input) (pos : Nat) (stack : List TokenizerState)
    (n : Nat) (bytes : List Nat) (p2 : Nat) (st2 : List TokenizerState)
    (h : get_stream inp pos stack n = .ok (bytes, p2, st2)) : bytes.length = n := by
  unfold get_stream at h
  by_cases hle : pos + n ≤ inp.length
  · rw [if_pos hle] at h
    cases stack with
    | nil => cases h
    | cons s rest =>
      cases h
      simp only [List.length_map, List.length_take, List.length_drop]
      omega
  · rw [if_neg hle] at h
    cases h

/-- The `as usize` cast is the identity on in-range natural numbers. -/
theorem ratAsU64_natCast (n : Nat) (h : n < 2 ^ 64) : ratAsU64 (n : ℚ) = n := by
  unfold ratAsU64
  rw [if_neg (not_lt.mpr (by positivity)), Int.floor_natCast]
  omega

/-- The `as usize` cast of the `Length` value `3.5`. -/
theorem ratAsU64_sevenHalves : ratAsU64 (7 / 2) = 3 := by
  unfold ratAsU64
  rw [if_neg (by norm_num), show Int.floor (7 / 2 : ℚ) = 3 by norm_num]
  rfl

/-- Evaluation of `parse_stream` on the `Length = 3.5` stream over the
cursor bytes `XYZendstream`. -/
theorem parse_stream_len35_eval :
    parse_stream "XYZendstream".data 0 [.Stream, .Object, .Start] exLen35Dict =
      .ok (.ok (.Stream exLen35Dict [88, 89, 90]), 12, [.Object, .Start]) := by
  unfold parse_stream
  rw [show dictGet exLen35Dict "Length" = some (PDFValue.Number (7 / 2)) from rfl]
  simp only [ratAsU64_sevenHalves]
  rfl

/-- Claim C7 (counterexample): a stream dictionary with `Length = 3.5`
parses successfully — exactly 3 raw bytes are consumed (`as usize`
truncation) — so `len(bytes) == dict["Length"]` fails: `3 ≠ 3.5`. -/
theorem c7_counterexample :
    parse_stream "XYZendstream".data 0 [.Stream, .Object, .Start] exLen35Dict =
      .ok (.ok (.Stream exLen35Dict [88, 89, 90]), 12, [.Object, .Start]) ∧
    ¬ ((3 : ℚ) = 7 / 2) := ⟨parse_stream_len35_eval, by norm_num⟩

/-- Claim C7 (amended): every `Stream{dict, bytes}` that `parse_stream`
emits satisfies `len(bytes) = dict["Length"] as usize` (truncation toward
zero); when `Length` is a nonnegative integer below `2^64` this is exact
equality with `Length`. -/
theorem c7_amended : ∀ inp pos stack d v p2 st2,
    parse_stream inp pos stack d = .ok (.ok v, p2, st2) →
    ∃ q bytes, dictGet d "Length" = some (.Number q) ∧ v = .Stream d bytes ∧
      bytes.length = ratAsU64 q ∧
      (∀ n : ℕ, q = (n : ℚ) → n < 2 ^ 64 → bytes.length = n) := by
  intro inp pos stack d v p2 st2 h
  unfold parse_stream at h
  split at h
  case _ q hL =>
    split at h
    case _ m hg => simp at h
    case _ trip bytes p1 st1 hg =>
      split at h
      case _ m hn => simp at h
      case _ m pp ss hn => simp at h
      case _ t pp ss hn =>
        split at h
        case _ =>
          simp only [RustResult.ok.injEq, Prod.mk.injEq, Except.ok.injEq] at h
          obtain ⟨hv, hp, hs⟩ := h
          refine ⟨q, bytes, hL, hv.symm, get_stream_ok_length _ _ _ _ _ _ _ hg, ?_⟩
          intro n hq hlt
          rw [get_stream_ok_length _ _ _ _ _ _ _ hg, hq, ratAsU64_natCast n hlt]
        case _ => simp at h
  case _ val hL hne => simp at h
  case _ hL => simp at h

/-- Witness for C7's amendment at the concrete `Length = 3.5` stream. -/
theorem c7_amended_witness :
    ∃ q bytes, dictGet exLen35Dict "Length" = some (.Number q) ∧
      (PDFValue.Stream exLen35Dict [88, 89, 90]) = .Stream exLen35Dict bytes ∧
      bytes.length = ratAsU64 q ∧
      (∀ n : ℕ, q = (n : ℚ) → n < 2 ^ 64 → bytes.length = n) :=
  c7_amended "XYZendstream".data 0 [.Stream, .Object, .Start] exLen35Dict
    (.Stream exLen35Dict [88, 89, 90]) 12 [.Object, .Start] parse_stream_len35_eval

/-- Claim C8 (counterexample): `BT 1 0 0 1 10 20 Tm (A) Tj ET BT (B) Tj ET`
as tokens.  The second text object contains a `ShowText` with NO preceding
`SetTextMatrix` in the same text object, yet no parse error occurs: the
matrix persists from the first text object and the run `("B", 10, 20)` is
emitted with the stale coordinates. -/
theorem c8_counterexample :
    get_text_objects [.BeginTextObject, .SetTextMatrix [1, 0, 0, 1, 10, 20],
      .ShowTextString "A", .EndTextObject, .BeginTextObject, .ShowTextString "B",
      .EndTextObject] =
      .ok [⟨[⟨"A", 10, 20⟩]⟩, ⟨[⟨"B", 10, 20⟩]⟩] := rfl

/-- Claim C8 (amended): the text matrix is a running value NEVER reset at
`BeginText`/`EndText` — it changes only at `SetTextMatrix`; a `ShowText`
inside a text object panics (`No text matrix set`) exactly when no
`SetTextMatrix` has occurred anywhere EARLIER IN THE WHOLE TOKEN STREAM,
and otherwise emits a `TextRun` whose x and y are entries 4 and 5 of the
most recent matrix, even one set in a previous text object. -/
theorem c8_amended :
    (∀ st tok st2, textStep st tok = .ok st2 →
      st2.text_matrix = st.text_matrix ∨
        ∃ m, tok = .SetTextMatrix m ∧ st2.text_matrix = some m) ∧
    (∀ st s, st.in_text_object = true → st.text_matrix = none →
      textStep st (.ShowTextString s) = .panic "No text matrix set") ∧
    (∀ st s m, st.in_text_object = true → st.text_matrix = some m → m.length = 6 →
      textStep st (.ShowTextString s) = .ok { st with current_text_object :=
        ⟨st.current_text_object.positioned_text ++
          [⟨s, m.getD 4 0, m.getD 5 0⟩]⟩ }) := by
  refine ⟨?_, ?_, ?_⟩
  · intro st tok st2 h
    unfold textStep at h
    split at h
    · split at h
      · cases h
      · cases h
        exact Or.inl rfl
      · rename_i m
        cases h
        exact Or.inr ⟨m, rfl, rfl⟩
      · cases h
        exact Or.inl rfl
      · split at h
        · cases h
        · split at h
          · cases h
            exact Or.inl rfl
          · cases h
      · cases h
    · split at h
      · cases h
        exact Or.inl rfl
      · cases h
        exact Or.inl rfl
  · intro st s hin hm
    unfold textStep
    rw [if_pos hin, hm]
  · intro st s m hin hm h6
    unfold textStep
    rw [if_pos hin]
    simp only [hm]
    rw [if_pos h6]

/-- A text-extraction state inside a text object with a matrix already
set (by a possibly earlier text object). -/
def exTextState : TextState := ⟨true, some [1, 0, 0, 1, 10, 20], [], ⟨[]⟩⟩

/-- A text-extraction state inside a text object with no matrix ever set. -/
def exTextStateNoTm : TextState := ⟨true, none, [], ⟨[]⟩⟩

/-- Witness for C8 instantiating all three branches of the amendment. -/
theorem c8_amended_witness :
    ((⟨false, some [1, 0, 0, 1, 10, 20], [⟨[]⟩], ⟨[]⟩⟩ : TextState).text_matrix =
        exTextState.text_matrix ∨
      ∃ m, ContentToken.EndTextObject = ContentToken.SetTextMatrix m ∧
        (⟨false, some [1, 0, 0, 1, 10, 20], [⟨[]⟩], ⟨[]⟩⟩ : TextState).text_matrix = some m) ∧
    textStep exTextStateNoTm (.ShowTextString "B") = .panic "No text matrix set" ∧
    textStep exTextState (.ShowTextString "A") = .ok { exTextState with
      current_text_object := ⟨exTextState.current_text_object.positioned_text ++
        [⟨"A", ([1, 0, 0, 1, 10, 20] : List ℚ).getD 4 0,
          ([1, 0, 0, 1, 10, 20] : List ℚ).getD 5 0⟩]⟩ } :=
  ⟨c8_amended.1 exTextState .EndTextObject
      ⟨false, some [1, 0, 0, 1, 10, 20], [⟨[]⟩], ⟨[]⟩⟩ rfl,
   c8_amended.2.1 exTextStateNoTm "B" rfl rfl,
   c8_amended.2.2 exTextState "A" [1, 0, 0, 1, 10, 20] rfl rfl rfl⟩

/-! ## Consumption lemmas for the content-stream parsers (claim C9) -/

/-- A parser whose successes never lengthen the remaining input. -/
def NonLenP {α : Type} (p : P α) : Prop :=
  ∀ s r a, p s = some (r, a) → r.length ≤ s.length

/-- A parser whose successes strictly shorten the remaining input. -/
def ConsumesP {α : Type} (p : P α) : Prop :=
  ∀ s r a, p s = some (r, a) → r.length < s.length

/-- Strict consumption implies non-lengthening. -/
theorem nonlen_of_consumes {α : Type} {p : P α} (h : ConsumesP p) : NonLenP p :=
  fun s r a hh => le_of_lt (h s r a hh)

/-- `charP` consumes one character. -/
theorem charP_consumes (c : Char) : ConsumesP (charP c) := by
  intro s r a h
  unfold charP at h
  split at h
  case _ d rest =>
    split at h
    · cases h
      simp
    · cases h
  case _ => cases h

/-- `tagP` never lengthens. -/
theorem tagP_nonlen (t : List Char) : NonLenP (tagP t) := by
  intro s r a h
  unfold tagP at h
  split at h
  · cases h
    simp
  · cases h

/-- `tagP` with a nonempty tag consumes. -/
theorem tagP_consumes (t : List Char) (ht : t ≠ []) : ConsumesP (tagP t) := by
  intro s r a h
  unfold tagP at h
  split at h
  case isTrue hp =>
    cases h
    have h1 : t.length ≤ s.length :=
      (List.isPrefixOf_iff_prefix.mp hp).length_le
    have h2 : 0 < t.length := List.length_pos.mpr ht
    simp only [List.length_drop]
    omega
  case isFalse => cases h

/-- `takeMSCount` is bounded by the input length. -/
theorem takeMSCount_le (s : List Char) : takeMSCount s ≤ s.length := by
  induction s with
  | nil => simp [takeMSCount]
  | cons c rest ih =>
    unfold takeMSCount
    split <;> simp <;> omega

/-- `takeAlnumCount` is bounded by the input length. -/
theorem takeAlnumCount_le (s : List Char) : takeAlnumCount s ≤ s.length := by
  induction s with
  | nil => simp [takeAlnumCount]
  | cons c rest ih =>
    unfold takeAlnumCount
    split <;> simp <;> omega

/-- `takeDigitsCount` is bounded by the input length. -/
theorem takeDigitsCount_le (s : List Char) : takeDigitsCount s ≤ s.length := by
  induction s with
  | nil => simp [takeDigitsCount]
  | cons c rest ih =>
    unfold takeDigitsCount
    split <;> simp <;> omega

/-- `multispace0P` never lengthens. -/
theorem multispace0P_nonlen : NonLenP multispace0P := by
  intro s r a h
  unfold multispace0P at h
  cases h
  simp

/-- `multispace1P` consumes. -/
theorem multispace1P_consumes : ConsumesP multispace1P := by
  intro s r a h
  unfold multispace1P at h
  split at h
  · cases h
  case isFalse hne =>
    cases h
    have := takeMSCount_le s
    simp only [List.length_drop]
    omega

/-- `alphanumeric1P` consumes. -/
theorem alphanumeric1P_consumes : ConsumesP alphanumeric1P := by
  intro s r a h
  unfold alphanumeric1P at h
  split at h
  · cases h
  case isFalse hne =>
    cases h
    have := takeAlnumCount_le s
    simp only [List.length_drop]
    omega

/-- `u64P` consumes. -/
theorem u64P_consumes : ConsumesP u64P := by
  intro s r a h
  unfold u64P at h
  split at h
  · cases h
  case isFalse hne =>
    split at h
    case isTrue =>
      cases h
      have := takeDigitsCount_le s
      simp only [List.length_drop]
      omega
    case isFalse => cases h

/-- `doubleP` never lengthens. -/
theorem doubleP_nonlen : NonLenP doubleP := by
  intro s r a h
  unfold doubleP at h
  cases h1 : recogFloat s with
  | none => rw [h1] at h; cases h
  | some kq =>
    obtain ⟨k, q⟩ := kq
    simp only [h1, Option.some.injEq, Prod.mk.injEq] at h
    obtain ⟨hr, _⟩ := h
    rw [← hr]
    simp

/-- `mapP` preserves non-lengthening. -/
theorem mapP_nonlen {α β : Type} {p : P α} (f : α → β) (hp : NonLenP p) :
    NonLenP (mapP p f) := by
  intro s r a h
  unfold mapP at h
  cases h1 : p s with
  | none => rw [h1] at h; cases h
  | some ra =>
    obtain ⟨s1, va⟩ := ra
    simp only [h1, Option.some.injEq, Prod.mk.injEq] at h
    obtain ⟨hr, _⟩ := h
    rw [← hr]
    exact hp s s1 va h1

/-- `mapP` preserves consumption. -/
theorem mapP_consumes {α β : Type} {p : P α} (f : α → β) (hp : ConsumesP p) :
    ConsumesP (mapP p f) := by
  intro s r a h
  unfold mapP at h
  cases h1 : p s with
  | none => rw [h1] at h; cases h
  | some ra =>
    obtain ⟨s1, va⟩ := ra
    simp only [h1, Option.some.injEq, Prod.mk.injEq] at h
    obtain ⟨hr, _⟩ := h
    rw [← hr]
    exact hp s s1 va h1

/-- `pairP` of non-lengthening parsers never lengthens. -/
theorem pairP_nonlen {α β : Type} {a : P α} {b : P β} (ha : NonLenP a) (hb : NonLenP b) :
    NonLenP (pairP a b) := by
  intro s r v h
  unfold pairP at h
  cases h1 : a s with
  | none => rw [h1] at h; cases h
  | some ra =>
    obtain ⟨s1, va⟩ := ra
    simp only [h1] at h
    cases h2 : b s1 with
    | none => rw [h2] at h; cases h
    | some rb =>
      obtain ⟨s2, vb⟩ := rb
      simp only [h2, Option.some.injEq, Prod.mk.injEq] at h
      obtain ⟨hr, _⟩ := h
      rw [← hr]
      exact le_trans (hb s1 s2 vb h2) (ha s s1 va h1)

/-- `pairP` with a consuming second component consumes. -/
theorem pairP_consumes_right {α β : Type} {a : P α} {b : P β}
    (ha : NonLenP a) (hb : ConsumesP b) : ConsumesP (pairP a b) := by
  intro s r v h
  unfold pairP at h
  cases h1 : a s with
  | none => rw [h1] at h; cases h
  | some ra =>
    obtain ⟨s1, va⟩ := ra
    simp only [h1] at h
    cases h2 : b s1 with
    | none => rw [h2] at h; cases h
    | some rb =>
      obtain ⟨s2, vb⟩ := rb
      simp only [h2, Option.some.injEq, Prod.mk.injEq] at h
      obtain ⟨hr, _⟩ := h
      rw [← hr]
      exact lt_of_lt_of_le (hb s1 s2 vb h2) (ha s s1 va h1)

/-- `separated_pairP` of non-lengthening parsers never lengthens. -/
theorem separated_pairP_nonlen {α β γ : Type} {a : P α} {sep : P β} {b : P γ}
    (ha : NonLenP a) (hs : NonLenP sep) (hb : NonLenP b) :
    NonLenP (separated_pairP a sep b) := by
  intro s r v h
  unfold separated_pairP at h
  cases h1 : a s with
  | none => rw [h1] at h; cases h
  | some ra =>
    obtain ⟨s1, va⟩ := ra
    simp only [h1] at h
    cases h2 : sep s1 with
    | none => rw [h2] at h; cases h
    | some rs =>
      obtain ⟨s2, vs⟩ := rs
      simp only [h2] at h
      cases h3 : b s2 with
      | none => rw [h3] at h; cases h
      | some rb =>
        obtain ⟨s3, vb⟩ := rb
        simp only [h3, Option.some.injEq, Prod.mk.injEq] at h
        obtain ⟨hr, _⟩ := h
        rw [← hr]
        exact le_trans (hb s2 s3 vb h3) (le_trans (hs s1 s2 vs h2) (ha s s1 va h1))

/-- `separated_pairP` with a consuming final parser consumes. -/
theorem separated_pairP_consumes_right {α β γ : Type} {a : P α} {sep : P β} {b : P γ}
    (ha : NonLenP a) (hs : NonLenP sep) (hb : ConsumesP b) :
    ConsumesP (separated_pairP a sep b) := by
  intro s r v h
  unfold separated_pairP at h
  cases h1 : a s with
  | none => rw [h1] at h; cases h
  | some ra =>
    obtain ⟨s1, va⟩ := ra
    simp only [h1] at h
    cases h2 : sep s1 with
    | none => rw [h2] at h; cases h
    | some rs =>
      obtain ⟨s2, vs⟩ := rs
      simp only [h2] at h
      cases h3 : b s2 with
      | none => rw [h3] at h; cases h
      | some rb =>
        obtain ⟨s3, vb⟩ := rb
        simp only [h3, Option.some.injEq, Prod.mk.injEq] at h
        obtain ⟨hr, _⟩ := h
        rw [← hr]
        exact lt_of_lt_of_le (hb s2 s3 vb h3) (le_trans (hs s1 s2 vs h2) (ha s s1 va h1))

/-- `delimitedP` of non-lengthening parsers never lengthens. -/
theorem delimitedP_nonlen {α β γ : Type} {a : P α} {b : P β} {c : P γ}
    (ha : NonLenP a) (hb : NonLenP b) (hc : NonLenP c) : NonLenP (delimitedP a b c) := by
  intro s r v h
  unfold delimitedP at h
  cases h1 : a s with
  | none => rw [h1] at h; cases h
  | some ra =>
    obtain ⟨s1, va⟩ := ra
    simp only [h1] at h
    cases h2 : b s1 with
    | none => rw [h2] at h; cases h
    | some rb =>
      obtain ⟨s2, vb⟩ := rb
      simp only [h2] at h
      cases h3 : c s2 with
      | none => rw [h3] at h; cases h
      | some rc =>
        obtain ⟨s3, vc⟩ := rc
        simp only [h3, Option.some.injEq, Prod.mk.injEq] at h
        obtain ⟨hr, _⟩ := h
        rw [← hr]
        exact le_trans (hc s2 s3 vc h3) (le_trans (hb s1 s2 vb h2) (ha s s1 va h1))

/-- `delimitedP` with a consuming middle parser consumes. -/
theorem delimitedP_consumes_mid {α β γ : Type} {a : P α} {b : P β} {c : P γ}
    (ha : NonLenP a) (hb : ConsumesP b) (hc : NonLenP c) : ConsumesP (delimitedP a b c) := by
  intro s r v h
  unfold delimitedP at h
  cases h1 : a s with
  | none => rw [h1] at h; cases h
  | some ra =>
    obtain ⟨s1, va⟩ := ra
    simp only [h1] at h
    cases h2 : b s1 with
    | none => rw [h2] at h; cases h
    | some rb =>
      obtain ⟨s2, vb⟩ := rb
      simp only [h2] at h
      cases h3 : c s2 with
      | none => rw [h3] at h; cases h
      | some rc =>
        obtain ⟨s3, vc⟩ := rc
        simp only [h3, Option.some.injEq, Prod.mk.injEq] at h
        obtain ⟨hr, _⟩ := h
        rw [← hr]
        exact lt_of_le_of_lt (hc s2 s3 vc h3)
          (lt_of_lt_of_le (hb s1 s2 vb h2) (ha s s1 va h1))

/-- `delimitedP` with a consuming opening parser consumes. -/
theorem delimitedP_consumes_left {α β γ : Type} {a : P α} {b : P β} {c : P γ}
    (ha : ConsumesP a) (hb : NonLenP b) (hc : NonLenP c) : ConsumesP (delimitedP a b c) := by
  intro s r v h
  unfold delimitedP at h
  cases h1 : a s with
  | none => rw [h1] at h; cases h
  | some ra =>
    obtain ⟨s1, va⟩ := ra
    simp only [h1] at h
    cases h2 : b s1 with
    | none => rw [h2] at h; cases h
    | some rb =>
      obtain ⟨s2, vb⟩ := rb
      simp only [h2] at h
      cases h3 : c s2 with
      | none => rw [h3] at h; cases h
      | some rc =>
        obtain ⟨s3, vc⟩ := rc
        simp only [h3, Option.some.injEq, Prod.mk.injEq] at h
        obtain ⟨hr, _⟩ := h
        rw [← hr]
        exact lt_of_le_of_lt (le_trans (hc s2 s3 vc h3) (hb s1 s2 vb h2)) (ha s s1 va h1)

/-- `precededP` of non-lengthening parsers never lengthens. -/
theorem precededP_nonlen {α β : Type} {a : P α} {b : P β} (ha : NonLenP a) (hb : NonLenP b) :
    NonLenP (precededP a b) := by
  intro s r v h
  unfold precededP at h
  cases h1 : a s with
  | none => rw [h1] at h; cases h
  | some ra =>
    obtain ⟨s1, va⟩ := ra
    simp only [h1] at h
    cases h2 : b s1 with
    | none => rw [h2] at h; cases h
    | some rb =>
      obtain ⟨s2, vb⟩ := rb
      simp only [h2, Option.some.injEq, Prod.mk.injEq] at h
      obtain ⟨hr, _⟩ := h
      rw [← hr]
      exact le_trans (hb s1 s2 vb h2) (ha s s1 va h1)

/-- `countP` of a non-lengthening parser never lengthens. -/
theorem countP_nonlen {α : Type} {p : P α} (hp : NonLenP p) :
    ∀ n, NonLenP (countP p n) := by
  intro n
  induction n with
  | zero =>
    intro s r v h
    unfold countP at h
    cases h
    simp
  | succ k ih =>
    intro s r v h
    unfold countP at h
    cases h1 : p s with
    | none => rw [h1] at h; cases h
    | some ra =>
      obtain ⟨s1, va⟩ := ra
      simp only [h1] at h
      cases h2 : countP p k s1 with
      | none => rw [h2] at h; cases h
      | some rb =>
        obtain ⟨s2, vs⟩ := rb
        simp only [h2, Option.some.injEq, Prod.mk.injEq] at h
        obtain ⟨hr, _⟩ := h
        rw [← hr]
        exact le_trans (ih s1 s2 vs h2) (hp s s1 va h1)

/-- `altP []` never succeeds, hence consumes vacuously. -/
theorem altP_nil_consumes {α : Type} : ConsumesP (altP ([] : List (P α))) := by
  intro s r a h
  cases h

/-- `altP` over a head and tail of consuming parsers consumes. -/
theorem altP_cons_consumes {α : Type} {p : P α} {ps : List (P α)}
    (hp : ConsumesP p) (hps : ConsumesP (altP ps)) : ConsumesP (altP (p :: ps)) := by
  intro s r a h
  unfold altP at h
  cases h1 : p s with
  | none => rw [h1] at h; exact hps s r a h
  | some rr =>
    obtain ⟨r1, a1⟩ := rr
    simp only [h1, Option.some.injEq, Prod.mk.injEq] at h
    obtain ⟨hr, ha⟩ := h
    subst hr
    subst ha
    exact hp s _ _ h1

/-- Strong-induction core of `escapedGo_nonlen`. -/
theorem escapedGo_nonlen_go : ∀ n : Nat, ∀ l : List Char, l.length ≤ n →
    ∀ r m, escapedGo l = some (r, m) → r.length ≤ l.length := by
  intro n
  induction n with
  | zero =>
    intro l hl r m h
    cases l with
    | nil => cases h; simp
    | cons c rest => simp at hl
  | succ k ih =>
    intro l hl r m h
    cases l with
    | nil => cases h; simp
    | cons c rest =>
      unfold escapedGo at h
      by_cases hc : c = '\\'
      · rw [if_pos hc] at h
        split at h
        · cases h
        · rename_i d rest2
          by_cases hd : d = ')' ∨ d = '('
          · rw [if_pos hd] at h
            cases h2 : escapedGo rest2 with
            | none => rw [h2] at h; cases h
            | some rm =>
              obtain ⟨r2, m2⟩ := rm
              simp only [h2, Option.some.injEq, Prod.mk.injEq] at h
              obtain ⟨hr, _⟩ := h
              rw [← hr]
              have h3 := ih rest2 (by simp at hl; omega) r2 m2 h2
              simp
              omega
          · rw [if_neg hd] at h
            cases h
      · rw [if_neg hc] at h
        by_cases hpar : c = ')' ∨ c = '('
        · rw [if_pos hpar] at h
          cases h
          simp
        · rw [if_neg hpar] at h
          cases h2 : escapedGo rest with
          | none => rw [h2] at h; cases h
          | some rm =>
            obtain ⟨r2, m2⟩ := rm
            simp only [h2, Option.some.injEq, Prod.mk.injEq] at h
            obtain ⟨hr, _⟩ := h
            rw [← hr]
            have h3 := ih rest (by simp at hl; omega) r2 m2 h2
            simp
            omega

/-- `escapedGo` returns a suffix: it never lengthens. -/
theorem escapedGo_nonlen : ∀ l r m, escapedGo l = some (r, m) → r.length ≤ l.length :=
  fun l => escapedGo_nonlen_go l.length l le_rfl

/-- `escapedP` never lengthens. -/
theorem escapedP_nonlen : NonLenP escapedP := by
  intro s r a h
  unfold escapedP at h
  cases h1 : escapedGo s with
  | none => rw [h1] at h; cases h
  | some rm =>
    obtain ⟨r2, m2⟩ := rm
    simp only [h1, Option.some.injEq, Prod.mk.injEq] at h
    obtain ⟨hr, _⟩ := h
    rw [← hr]
    exact escapedGo_nonlen s r2 m2 h1

/-- The `many0` loop of non-lengthening parsers never lengthens. -/
theorem many0go_nonlen {α : Type} {p : P α} (hp : NonLenP p) :
    ∀ fuel s r as1, many0go p fuel s = some (r, as1) → r.length ≤ s.length := by
  intro fuel
  induction fuel with
  | zero => intro s r as1 h; cases h
  | succ k ih =>
    intro s r as1 h
    unfold many0go at h
    cases h1 : p s with
    | none =>
      simp only [h1, Option.some.injEq, Prod.mk.injEq] at h
      obtain ⟨hr, _⟩ := h
      rw [← hr]
    | some rr =>
      obtain ⟨rest, a⟩ := rr
      simp only [h1] at h
      split at h
      · cases h
      · cases h2 : many0go p k rest with
        | none => rw [h2] at h; cases h
        | some r2 =>
          obtain ⟨r3, as2⟩ := r2
          simp only [h2, Option.some.injEq, Prod.mk.injEq] at h
          obtain ⟨hr, _⟩ := h
          rw [← hr]
          exact le_trans (ih rest r3 as2 h2) (hp s rest a h1)

/-- `many1P` of a non-lengthening parser never lengthens. -/
theorem many1P_nonlen {α : Type} {p : P α} (hp : NonLenP p) : NonLenP (many1P p) := by
  intro s r v h
  unfold many1P at h
  cases h1 : p s with
  | none => rw [h1] at h; cases h
  | some rr =>
    obtain ⟨rest, a⟩ := rr
    simp only [h1] at h
    split at h
    · cases h
    · cases h2 : many0go p (rest.length + 1) rest with
      | none => rw [h2] at h; cases h
      | some r2 =>
        obtain ⟨r3, as2⟩ := r2
        simp only [h2, Option.some.injEq, Prod.mk.injEq] at h
        obtain ⟨hr, _⟩ := h
        rw [← hr]
        exact le_trans (many0go_nonlen hp _ rest r3 as2 h2) (hp s rest a h1)

/-- `many0go` with fuel exceeding the input length always succeeds when
the inner parser consumes: nom's `many0` error is unreachable. -/
theorem many0go_total {α : Type} {p : P α} (hp : ConsumesP p) :
    ∀ fuel s, s.length < fuel → ∃ r, many0go p fuel s = some r := by
  intro fuel
  induction fuel with
  | zero => intro s h; omega
  | succ k ih =>
    intro s hs
    cases h1 : p s with
    | none => exact ⟨(s, []), by unfold many0go; rw [h1]⟩
    | some rr =>
      obtain ⟨rest, a⟩ := rr
      have hc := hp s rest a h1
      obtain ⟨r2, h2⟩ := ih rest (by omega)
      obtain ⟨r3, as2⟩ := r2
      refine ⟨(r3, a :: as2), ?_⟩
      have hne : ¬ rest.length = s.length := by omega
      unfold many0go
      simp [h1, hne, h2]

/-- `parse_tag` never lengthens. -/
theorem parse_tag_nonlen : NonLenP parse_tag :=
  delimitedP_nonlen multispace0P_nonlen
    (precededP_nonlen (nonlen_of_consumes (charP_consumes _)) (nonlen_of_consumes alphanumeric1P_consumes))
    (nonlen_of_consumes multispace1P_consumes)

/-- `parse_string` never lengthens. -/
theorem parse_string_nonlen : NonLenP parse_string := by
  unfold parse_string
  refine delimitedP_nonlen (tagP_nonlen _) ?_ (tagP_nonlen _)
  intro s r a h
  unfold altP at h
  cases h1 : escapedP s with
  | none =>
    rw [h1] at h
    unfold altP at h
    cases h2 : tagP [] s with
    | none => rw [h2] at h; unfold altP at h; cases h
    | some rr =>
      obtain ⟨r1, a1⟩ := rr
      simp only [h2, Option.some.injEq, Prod.mk.injEq] at h
      obtain ⟨hr, _⟩ := h
      rw [← hr]
      exact tagP_nonlen [] s r1 a1 h2
  | some rr =>
    obtain ⟨r1, a1⟩ := rr
    simp only [h1, Option.some.injEq, Prod.mk.injEq] at h
    obtain ⟨hr, _⟩ := h
    rw [← hr]
    exact escapedP_nonlen s r1 a1 h1

/-- `parse_dictionary` never lengthens. -/
theorem parse_dictionary_nonlen : NonLenP parse_dictionary :=
  delimitedP_nonlen (tagP_nonlen _)
    (many1P_nonlen (delimitedP_nonlen multispace0P_nonlen
      (separated_pairP_nonlen parse_tag_nonlen multispace0P_nonlen
        (nonlen_of_consumes u64P_consumes))
      multispace0P_nonlen))
    (tagP_nonlen _)

/-- Every alternative of the content-stream `alt` strictly consumes. -/
theorem contentAlt_consumes : ConsumesP contentAlt := by
  unfold contentAlt
  refine altP_cons_consumes (mapP_consumes _ (pairP_consumes_right
    (countP_nonlen (delimitedP_nonlen multispace0P_nonlen doubleP_nonlen
      multispace0P_nonlen) 6) (tagP_consumes _ (by simp)))) ?_
  refine altP_cons_consumes (mapP_consumes _ (separated_pairP_consumes_right
    parse_tag_nonlen multispace0P_nonlen (tagP_consumes _ (by simp)))) ?_
  refine altP_cons_consumes (mapP_consumes _ (delimitedP_consumes_mid
    multispace0P_nonlen (tagP_consumes _ (by simp))
    (nonlen_of_consumes multispace1P_consumes))) ?_
  refine altP_cons_consumes (mapP_consumes _ (separated_pairP_consumes_right
    doubleP_nonlen (nonlen_of_consumes multispace1P_consumes) (charP_consumes _))) ?_
  refine altP_cons_consumes (mapP_consumes _ (separated_pairP_consumes_right
    doubleP_nonlen (nonlen_of_consumes multispace1P_consumes) (charP_consumes _))) ?_
  refine altP_cons_consumes (mapP_consumes _ (separated_pairP_consumes_right
    (separated_pairP_nonlen doubleP_nonlen (nonlen_of_consumes multispace1P_consumes)
      doubleP_nonlen)
    (nonlen_of_consumes multispace1P_consumes) (charP_consumes _))) ?_
  refine altP_cons_consumes (mapP_consumes _ (separated_pairP_consumes_right
    (separated_pairP_nonlen doubleP_nonlen (nonlen_of_consumes multispace1P_consumes)
      doubleP_nonlen)
    (nonlen_of_consumes multispace1P_consumes) (charP_consumes _))) ?_
  refine altP_cons_consumes (mapP_consumes _ (delimitedP_consumes_mid
    multispace0P_nonlen (charP_consumes _)
    (nonlen_of_consumes multispace1P_consumes))) ?_
  refine altP_cons_consumes (mapP_consumes _ (separated_pairP_consumes_right
    (separated_pairP_nonlen parse_tag_nonlen multispace0P_nonlen
      parse_dictionary_nonlen)
    multispace0P_nonlen (tagP_consumes _ (by simp)))) ?_
  refine altP_cons_consumes (mapP_consumes _ (separated_pairP_consumes_right
    doubleP_nonlen (nonlen_of_consumes multispace1P_consumes) (charP_consumes _))) ?_
  refine altP_cons_consumes (mapP_consumes _ (tagP_consumes _ (by simp))) ?_
  refine altP_cons_consumes (mapP_consumes _ (tagP_consumes _ (by simp))) ?_
  refine altP_cons_consumes (mapP_consumes _ (pairP_consumes_right
    (countP_nonlen (delimitedP_nonlen multispace0P_nonlen doubleP_nonlen
      multispace0P_nonlen) 6) (tagP_consumes _ (by simp)))) ?_
  refine altP_cons_consumes (mapP_consumes _ (pairP_consumes_right
    (pairP_nonlen parse_tag_nonlen (delimitedP_nonlen multispace0P_nonlen
      doubleP_nonlen (nonlen_of_consumes multispace1P_consumes)))
    (tagP_consumes _ (by simp)))) ?_
  refine altP_cons_consumes (mapP_consumes _ (separated_pairP_consumes_right
    parse_string_nonlen multispace0P_nonlen (tagP_consumes _ (by simp)))) ?_
  refine altP_cons_consumes (mapP_consumes _ (separated_pairP_consumes_right
    doubleP_nonlen (nonlen_of_consumes multispace1P_consumes) (charP_consumes _))) ?_
  refine altP_cons_consumes (mapP_consumes _ (delimitedP_consumes_mid
    multispace0P_nonlen (charP_consumes _)
    (nonlen_of_consumes multispace1P_consumes))) ?_
  refine altP_cons_consumes (mapP_consumes _ (delimitedP_consumes_mid
    multispace0P_nonlen (tagP_consumes _ (by simp))
    (nonlen_of_consumes multispace1P_consumes))) ?_
  refine altP_cons_consumes (mapP_consumes _ (delimitedP_consumes_mid
    multispace0P_nonlen (charP_consumes _)
    (nonlen_of_consumes multispace1P_consumes))) ?_
  refine altP_cons_consumes (mapP_consumes _ (delimitedP_consumes_mid
    multispace0P_nonlen (charP_consumes _)
    (nonlen_of_consumes multispace1P_consumes))) ?_
  refine altP_cons_consumes (mapP_consumes _ (separated_pairP_consumes_right
    parse_tag_nonlen multispace0P_nonlen (tagP_consumes _ (by simp)))) ?_
  exact altP_nil_consumes

/-- The repeated item of `parse`'s `many0` strictly consumes. -/
theorem contentItem_consumes : ConsumesP contentItem :=
  delimitedP_consumes_mid multispace0P_nonlen contentAlt_consumes multispace0P_nonlen

/-- `parse` never returns an error: the `many0` loop always succeeds. -/
theorem parse_total : ∀ source : List Char, ∃ toks, parse source = .ok toks := by
  intro source
  obtain ⟨r, h⟩ := many0go_total contentItem_consumes (source.length + 1) source (by omega)
  obtain ⟨rest, toks⟩ := r
  exact ⟨toks, by unfold parse; rw [h]⟩

/-- Claim C9 (counterexample): `BT ET foo` holds the unknown operator
`foo`, yet the content-stream lexer succeeds — `parse` returns the two
tokens before it with NO error, and `many0` stops leaving the three bytes
`foo` unconsumed, which `parse` silently discards. -/
theorem c9_counterexample :
    parse "BT ET foo".data = .ok [.BeginTextObject, .EndTextObject] ∧
    many0go contentItem ("BT ET foo".data.length + 1) "BT ET foo".data =
      some ("foo".data, [.BeginTextObject, .EndTextObject]) := ⟨rfl, rfl⟩

/-- Claim C9 (amended): an operator keyword outside the recognized set
never makes the lexer report an error — for EVERY input, `many0` succeeds,
`parse` returns exactly the tokens of the greedily parsed prefix, and the
unconsumed remainder (trailing unparseable bytes included) is silently
dropped. -/
theorem c9_amended : ∀ source : List Char, ∃ rest toks,
    many0go contentItem (source.length + 1) source = some (rest, toks) ∧
    parse source = .ok toks := by
  intro source
  obtain ⟨r, h⟩ := many0go_total contentItem_consumes (source.length + 1) source (by omega)
  obtain ⟨rest, toks⟩ := r
  exact ⟨rest, toks, h, by unfold parse; rw [h]⟩

/-- Claim C10 (confirmed): whenever `next` returns (no panic), `peak_next`
restores the cursor position and the state stack exactly, returns the same
token result as `next`, and a `next` performed from the restored state
coincides with calling `next` directly. -/
theorem c10_peak_next_next :
    ∀ inp pos stack, (next inp pos stack).isPanicN = false →
      (peak_next inp pos stack).place? = some (pos, stack) ∧
      (peak_next inp pos stack).tok? = (next inp pos stack).tok? ∧
      (∀ p2 s2, (peak_next inp pos stack).place? = some (p2, s2) →
        next inp p2 s2 = next inp pos stack) := by
  intro inp pos stack h
  cases hn : next inp pos stack with
  | panic m =>
    rw [hn] at h
    simp [NextResult.isPanicN] at h
  | ok t p s =>
    have hp : peak_next inp pos stack = .ok t pos stack := by
      unfold peak_next
      rw [hn]
    refine ⟨by rw [hp]; rfl, by rw [hp]; rfl, ?_⟩
    intro p2 s2 h2
    rw [hp] at h2
    simp only [NextResult.place?, Option.some.injEq, Prod.mk.injEq] at h2
    obtain ⟨h3, h4⟩ := h2
    subst h3
    subst h4
    exact hn
  | err m p s =>
    have hp : peak_next inp pos stack = .err m pos stack := by
      unfold peak_next
      rw [hn]
    refine ⟨by rw [hp]; rfl, by rw [hp]; rfl, ?_⟩
    intro p2 s2 h2
    rw [hp] at h2
    simp only [NextResult.place?, Option.some.injEq, Prod.mk.injEq] at h2
    obtain ⟨h3, h4⟩ := h2
    subst h3
    subst h4
    exact hn

/-- Witness for C10 at a concrete dictionary-key tokenizer state. -/
theorem c10_witness :
    (next "/Key ".data 0 [.DictionaryKey]).isPanicN = false ∧
    ((peak_next "/Key ".data 0 [.DictionaryKey]).place? = some (0, [.DictionaryKey]) ∧
      (peak_next "/Key ".data 0 [.DictionaryKey]).tok? =
        (next "/Key ".data 0 [.DictionaryKey]).tok? ∧
      (∀ p2 s2, (peak_next "/Key ".data 0 [.DictionaryKey]).place? = some (p2, s2) →
        next "/Key ".data p2 s2 = next "/Key ".data 0 [.DictionaryKey])) :=
  ⟨rfl, c10_peak_next_next "/Key ".data 0 [.DictionaryKey] rfl⟩

end LarryPdf
